import Mathlib

/-!
# USB3813 hub driver (`drivers/misc/usb3813_hub.c`)

A shallow embedding of the driver's bus codec (`usb3813_write_command`,
`usb3813_write_cfg_reg`, `usb3813_read_cfg_reg`), its hub life cycle
(`usb3813_enable_hub`, `set_hsic_state`, `usb3813_attach_w`) and its debugfs
hooks (`get_reg`, `set_reg`, `usb3813_dbg_enable_write`,
`usb3813_dbg_attach_write`).

The driver state is a record that is passed through every function.  Every call
the driver makes into the kernel (mutex, i2c, clock, gpio, regulator, delayed
work) is appended to `trace`, in program order.  What the kernel answers is
read from an `Env`: one answer per position of the trace, so that every
behaviour of the transport, the clock and the regulator is some `Env`.
C `int` is `Int`, `u8`/`u16`/`u64` are `Nat` reduced with `%` where the C code
stores into the narrower type.  Diagnostics (`dev_err`) are not recorded.
-/

namespace Usb3813

/-! ## Constants -/

/-- Error number `EIO` of `errno-base.h`. -/
def EIO : Int := 5
/-- Error number `EFAULT` of `errno-base.h`. -/
def EFAULT : Int := 14
/-- Error number `EBUSY` of `errno-base.h`. -/
def EBUSY : Int := 16
/-- Error number `ENODEV` of `errno-base.h`. -/
def ENODEV : Int := 19
/-- Error number `EINVAL` of `errno-base.h`. -/
def EINVAL : Int := 22
/-- Error number `EINPROGRESS` of `errno.h`. -/
def EINPROGRESS : Int := 115

/-- Line 34: `#define USB_ATTACH 0xAA55`. -/
def USB_ATTACH : Nat := 0xAA55
/-- Line 35: `#define CFG_ACCESS 0x9937`. -/
def CFG_ACCESS : Nat := 0x9937
/-- Line 36: `#define HS_P2_BOOST 0x68CA`. -/
def HS_P2_BOOST : Nat := 0x68CA
/-- Line 38: `#define HS_BOOST_MAX 0x07`. -/
def HS_BOOST_MAX : Nat := 0x07
/-- Read flag of an i2c message (`linux/i2c.h`, `I2C_M_RD 0x0001`). -/
def I2C_M_RD : Nat := 0x0001

/-! ## Data model -/

/-- Modelled from the spec: `enum usb_ext_path` is declared in
`linux/mods/usb3813.h`, which is not among the sources.  The driver only
compares a path with `USB_EXT_PATH_BRIDGE` (the spec's bridge path); every
other enumerator is `other n`. -/
inductive usb_ext_path where
  | USB_EXT_PATH_BRIDGE
  | other (n : Nat)
deriving DecidableEq, Repr

/-- One `struct i2c_msg`: bus address, flags, length and buffer.  For a write
message `buf` is the byte array the message points at (of which `len` bytes go
on the wire); for a read message the buffer is filled by the transport and
`buf` is left empty. -/
structure i2c_msg where
  addr : Nat
  flags : Nat
  len : Nat
  buf : List Nat
deriving DecidableEq, Repr

/-- The bytes a message puts on the wire: the first `len` bytes of its buffer. -/
def i2c_msg.payload (m : i2c_msg) : List Nat := m.buf.take m.len

/-- One call from the driver into the kernel. -/
inductive Event where
  | mutex_lock
  | mutex_unlock
  | i2c_transfer (msgs : List i2c_msg) (num : Nat) (ret : Int)
  | clk_prepare_enable (ret : Int)
  | clk_disable_unprepare
  | gpio_set_value (value : Nat)
  | cancel_delayed_work
  | schedule_delayed_work (msecs : Nat)
  | regulator_enable (ret : Int)
  | regulator_disable (ret : Int)
  | slimport_reset_standby
  | mdelay (msecs : Nat)
deriving DecidableEq, Repr

/-- What one `i2c_transfer` call leaves behind: its return value and the two
bytes found in the receive buffer `val` afterwards (whatever the adapter
stored there, or the stale stack bytes it left). -/
structure i2c_result where
  ret : Int
  val0 : Nat
  val1 : Nat
deriving DecidableEq, Repr

/-- The answers of the kernel, one per position of the trace. -/
structure Env where
  i2c_transfer : Nat → i2c_result
  clk_prepare_enable : Nat → Int
  regulator_enable : Nat → Int
  regulator_disable : Nat → Int
  /-- Content of an uninitialised `int` local when it is read. -/
  uninit : Nat → Int

/-- The driver state `struct usb3813_info` (lines 44-58): the bus address of
the client, the flags, the delayed work `usb3813_attach_work` (`some d` while
it is queued to run after `d` ms) and the trace of kernel calls so far. -/
structure usb3813_info where
  addr : Nat
  hub_enabled : Bool
  usb3813_attach_work : Option Nat
  debug_address : Nat
  debug_enabled : Bool
  debug_attach : Bool
  hsic_enabled : Bool
  trace : List Event
deriving DecidableEq, Repr

/-- State after `devm_kzalloc` and `usb3813_probe`: every flag clear, no work
queued, nothing recorded. -/
def usb3813_info.init (addr : Nat) : usb3813_info :=
  { addr := addr, hub_enabled := false, usb3813_attach_work := none,
    debug_address := 0, debug_enabled := false, debug_attach := false,
    hsic_enabled := false, trace := [] }

/-- Record one kernel call. -/
def emit (info : usb3813_info) (e : Event) : usb3813_info :=
  { info with trace := info.trace ++ [e] }

/-- Kernel `cancel_delayed_work`: a queued work is removed. -/
def cancel_delayed_work (info : usb3813_info) : usb3813_info :=
  { emit info Event.cancel_delayed_work with usb3813_attach_work := none }

/-- Kernel `schedule_delayed_work`: queue the work unless it is queued already. -/
def schedule_delayed_work (info : usb3813_info) (msecs : Nat) : usb3813_info :=
  let info1 := emit info (Event.schedule_delayed_work msecs)
  match info.usb3813_attach_work with
  | some _ => info1
  | none => { info1 with usb3813_attach_work := some msecs }

/-- One `mutex_lock; i2c_transfer; mutex_unlock` block (lines 76-78, 110-112,
143-145, 164-166): returns what the transport left behind. -/
def locked_i2c_transfer (env : Env) (info : usb3813_info) (msgs : List i2c_msg)
    (num : Nat) : i2c_result × usb3813_info :=
  let info1 := emit info Event.mutex_lock
  let r := env.i2c_transfer info1.trace.length
  let info2 := emit info1 (Event.i2c_transfer msgs num r.ret)
  (r, emit info2 Event.mutex_unlock)

/-! ## Bus codec -/

/-- Lines 60-87. -/
def usb3813_write_command (env : Env) (info : usb3813_info) (command : Nat) :
    Int × usb3813_info :=
  let data : List Nat := [(command >>> 8) &&& 0xFF, command &&& 0xFF, 0x00]
  let msg : List i2c_msg :=
    [{ addr := info.addr, flags := 0, buf := data, len := data.length }]
  let (r, info1) := locked_i2c_transfer env info msg msg.length
  let ret := r.ret
  if ret < 0 then (ret, info1)
  else if ret ≠ 1 then (- EIO, info1)
  else (0, info1)

/-- Lines 89-120. -/
def usb3813_write_cfg_reg (env : Env) (info : usb3813_info) (reg : Nat) (val : Nat) :
    Int × usb3813_info :=
  let data : List Nat :=
    [0x00, 0x00, 0x05, 0x00, 0x01, (reg >>> 8) &&& 0xFF, reg &&& 0xFF, val % 256]
  let msg : List i2c_msg :=
    [{ addr := info.addr, flags := 0, buf := data, len := data.length }]
  let (r, info1) := locked_i2c_transfer env info msg msg.length
  let ret := r.ret
  if ret < 0 then (ret, info1)
  else if ret ≠ 1 then (- EIO, info1)
  else usb3813_write_command env info1 CFG_ACCESS

/-- Lines 122-172.  The second exchange reuses `data` with its first two bytes
overwritten and `msg[0].len = 2`; the result is `val[1]` as left by the
transport. -/
def usb3813_read_cfg_reg (env : Env) (info : usb3813_info) (reg : Nat) :
    Int × usb3813_info :=
  let data : List Nat :=
    [0x00, 0x00, 0x04, 0x01, 0x01, (reg >>> 8) &&& 0xFF, reg &&& 0xFF]
  let msg0 : i2c_msg := { addr := info.addr, flags := 0, buf := data, len := data.length }
  let (r, info1) := locked_i2c_transfer env info [msg0] 1
  let ret := r.ret
  if ret < 0 then (ret, info1)
  else if ret ≠ 1 then (- EIO, info1)
  else
    let (ret, info2) := usb3813_write_command env info1 CFG_ACCESS
    if ret < 0 then (ret, info2)
    else
      let data := (data.set 0 0x00).set 1 0x04
      let msg0 : i2c_msg := { msg0 with buf := data, len := 2 }
      let msg1 : i2c_msg := { addr := info.addr, flags := I2C_M_RD, buf := [], len := 2 }
      let msg : List i2c_msg := [msg0, msg1]
      let (r, info3) := locked_i2c_transfer env info2 msg msg.length
      let ret := r.ret
      if ret < 0 then (ret, info3)
      else (((r.val1 % 256 : Nat) : Int), info3)

/-! ## Hub life cycle -/

/-- Lines 174-195.  When neither branch is taken the local `ret` is returned
uninitialised. -/
def set_hsic_state (env : Env) (info : usb3813_info) (enable : Bool) :
    Int × usb3813_info :=
  if enable && !info.hsic_enabled then
    let ret := env.regulator_enable info.trace.length
    let info1 := emit info (Event.regulator_enable ret)
    if ret ≠ 0 then (ret, info1)
    else (ret, { info1 with hsic_enabled := true })
  else if !enable && info.hsic_enabled then
    let ret := env.regulator_disable info.trace.length
    let info1 := emit info (Event.regulator_disable ret)
    if ret ≠ 0 then (ret, info1)
    else (ret, { info1 with hsic_enabled := false })
  else (env.uninit info.trace.length, info)

/-- Lines 230-264.  `clientdata` is the result of `i2c_get_clientdata`: `none`
is the NULL pointer. -/
def usb3813_enable_hub (env : Env) (clientdata : Option usb3813_info) (enable : Bool)
    (path : usb_ext_path) : Int × Option usb3813_info :=
  match clientdata with
  | none => (- EINVAL, none)
  | some info =>
    if enable == info.hub_enabled then (- EINPROGRESS, some info)
    else
      let info := { info with hub_enabled := enable }
      let info := cancel_delayed_work info
      if info.hub_enabled then
        let c := env.clk_prepare_enable info.trace.length
        let info := emit info (Event.clk_prepare_enable c)
        if c ≠ 0 then (- EFAULT, some info)
        else
          let info := emit info (Event.gpio_set_value 1)
          let info := schedule_delayed_work info 1000
          if path = usb_ext_path.USB_EXT_PATH_BRIDGE then
            (0, some (set_hsic_state env info true).2)
          else (0, some info)
      else
        let info := emit info (Event.gpio_set_value 0)
        let info := emit info Event.clk_disable_unprepare
        (0, some (set_hsic_state env info false).2)

/-- Lines 267-289: the body of the delayed work.  Both results are only
logged. -/
def usb3813_attach_w (env : Env) (info : usb3813_info) (boost_val : Nat) : usb3813_info :=
  if !info.hub_enabled then info
  else
    let info := emit info Event.slimport_reset_standby
    let (_, info) := usb3813_write_cfg_reg env info HS_P2_BOOST (boost_val % 256)
    let (_, info) := usb3813_write_command env info USB_ATTACH
    info

/-! ## Debug hooks -/

/-- Lines 291-305.  The second component is what is stored through `val`
(`none`: nothing stored); `temp` is a `u8`, so the `int` result of the read is
cut to its low byte. -/
def get_reg (env : Env) (info : usb3813_info) : Int × Option Nat × usb3813_info :=
  if !info.debug_enabled then (- ENODEV, none, info)
  else
    let (r, info1) := usb3813_read_cfg_reg env info info.debug_address
    let temp : Nat := (r % 256).toNat
    (0, some temp, info1)

/-- Lines 307-325. -/
def set_reg (env : Env) (info : usb3813_info) (val : Nat) : Int × usb3813_info :=
  if !info.debug_enabled then (- ENODEV, info)
  else
    let temp : Nat := val % 256
    usb3813_write_cfg_reg env info info.debug_address temp

/-- Lines 337-362. -/
def usb3813_dbg_enable_write (env : Env) (info : usb3813_info) (val : Nat) :
    Int × usb3813_info :=
  if info.hub_enabled then (- EBUSY, info)
  else if val ≠ 0 then
    let info := { info with debug_enabled := true }
    let c := env.clk_prepare_enable info.trace.length
    let info := emit info (Event.clk_prepare_enable c)
    if c ≠ 0 then (- EFAULT, info)
    else
      let info := emit info (Event.gpio_set_value 1)
      (0, { info with debug_enabled := true })
  else
    let info := emit info (Event.gpio_set_value 0)
    let info := emit info Event.clk_disable_unprepare
    (0, { info with debug_enabled := false })

/-- Lines 367-386.  The result of the attach command is assigned to `ret` and
the function returns the constant 0. -/
def usb3813_dbg_attach_write (env : Env) (info : usb3813_info) (val : Nat) :
    Int × usb3813_info :=
  if !info.debug_enabled then (- EINVAL, info)
  else if val ≠ 0 then
    let (_, info1) := usb3813_write_command env info USB_ATTACH
    (0, info1)
  else
    let info := emit info (Event.gpio_set_value 0)
    let info := emit info (Event.mdelay 10)
    let info := emit info (Event.gpio_set_value 1)
    (0, info)


/-! ## Sequences of calls, sample environments -/

/-- Whether an event is a bus exchange. -/
def Event.is_i2c : Event → Bool
  | Event.i2c_transfer _ _ _ => true
  | _ => false

/-- Number of bus exchanges recorded in a trace. -/
def i2c_count (t : List Event) : Nat := (t.filter Event.is_i2c).length

/-- A transport, clock and regulator on which every call succeeds; the fetch
of a register read at trace position 7 completes both messages and leaves
`0x12, 0x34` in the receive buffer. -/
def env_ok : Env :=
  { i2c_transfer := fun n => if n = 7 then ⟨2, 0x12, 0x34⟩ else ⟨1, 0, 0⟩
    clk_prepare_enable := fun _ => 0
    regulator_enable := fun _ => 0
    regulator_disable := fun _ => 0
    uninit := fun _ => 0 }

/-- A transport that answers every exchange with the error `-5`. -/
def env_bus_error : Env :=
  { env_ok with i2c_transfer := fun _ => ⟨-5, 0, 0⟩ }

/-- A transport on which the fetch of a register read (trace position 7)
completes only one of its two messages and leaves `0x12, 0x34` in the receive
buffer; every other exchange succeeds. -/
def env_short_fetch : Env :=
  { env_ok with i2c_transfer := fun n => if n = 7 then ⟨1, 0x12, 0x34⟩ else ⟨1, 0, 0⟩ }

/-- A clock that cannot be enabled (`clk_prepare_enable` returns `-22`). -/
def env_clk_fail : Env :=
  { env_ok with clk_prepare_enable := fun _ => -22 }

/-- A regulator that can neither be enabled nor disabled. -/
def env_regulator_fail : Env :=
  { env_ok with regulator_enable := fun _ => -22, regulator_disable := fun _ => -22 }

/-- The probed state with debug mode on and `HS_P2_BOOST` selected. -/
def info_debug : usb3813_info :=
  { usb3813_info.init 0x2d with debug_enabled := true, debug_address := 0x68CA }

/-- The probed state with the hub enabled and the attach work queued. -/
def info_enabled : usb3813_info :=
  { usb3813_info.init 0x2d with hub_enabled := true, usb3813_attach_work := some 1000 }

/-- The control-surface calls that change hub and debug mode. -/
inductive Call where
  | enable_hub (enable : Bool) (path : usb_ext_path)
  | dbg_enable_write (val : Nat)
deriving DecidableEq, Repr

/-- One call on a bound device (the client data is the state itself). -/
def step (env : Env) (info : usb3813_info) : Call → Int × usb3813_info
  | Call.enable_hub enable path =>
    match usb3813_enable_hub env (some info) enable path with
    | (r, some info1) => (r, info1)
    | (r, none) => (r, info)
  | Call.dbg_enable_write val => usb3813_dbg_enable_write env info val

/-- A sequence of calls, left to right. -/
def run (env : Env) (info : usb3813_info) : List Call → usb3813_info
  | [] => info
  | c :: cs => run env (step env info c).2 cs

/-- A transport on which every exchange completes exactly one message. -/
def env_attach_ok : Env :=
  { env_ok with i2c_transfer := fun _ => ⟨1, 0, 0⟩ }

/-- Lines 206-225.  `mode` is what `kstrtoul` parsed from the written text
(`none`: the text is not a number); `count` is the number of bytes written. -/
def usb3813_hsic_vdd_store (env : Env) (info : usb3813_info) (mode : Option Nat)
    (count : Nat) : Int × usb3813_info :=
  match mode with
  | none => (- EINVAL, info)
  | some mode =>
    let mode : Bool := decide (mode ≠ 0)
    let (r, info1) := set_hsic_state env info mode
    if r ≠ 0 then (- EFAULT, info1) else ((count : Int), info1)

/-- The trace of a list of bus exchanges each made as `mutex_lock`, one
`i2c_transfer`, `mutex_unlock`. -/
def xfer_blocks : List (List i2c_msg × Nat × Int) → List Event
  | [] => []
  | (msgs, num, ret) :: bs =>
    Event.mutex_lock :: Event.i2c_transfer msgs num ret :: Event.mutex_unlock :: xfer_blocks bs

/-- The i2c mutex as an automaton over a trace, started with the mutex `held`
or free: `some h` when the trace is legal and ends with the mutex held (`h`)
or free, `none` when the mutex is locked while held, unlocked while free, or a
transfer is made without it. -/
def mutex_run : Bool → List Event → Option Bool
  | held, [] => some held
  | held, Event.mutex_lock :: t => if held then none else mutex_run true t
  | held, Event.mutex_unlock :: t => if held then mutex_run false t else none
  | held, Event.i2c_transfer _ _ _ :: t => if held then mutex_run true t else none
  | held, _ :: t => mutex_run held t

/-- Number of `clk_prepare_enable` calls in a trace that succeeded. -/
def clk_enable_count (t : List Event) : Nat := t.count (Event.clk_prepare_enable 0)

/-- Number of `clk_disable_unprepare` calls in a trace. -/
def clk_disable_count (t : List Event) : Nat := t.count Event.clk_disable_unprepare

/-- Number of `regulator_enable` calls in a trace that succeeded. -/
def regulator_on_count (t : List Event) : Nat := t.count (Event.regulator_enable 0)

/-- Number of `regulator_disable` calls in a trace that succeeded. -/
def regulator_off_count (t : List Event) : Nat := t.count (Event.regulator_disable 0)

/-- Attach works armed and not cancelled, counted call by call:
`cancel_delayed_work` clears the count and every `schedule_delayed_work` adds
one, whether or not a work was queued already. -/
def armed_step (n : Nat) : Event → Nat
  | Event.cancel_delayed_work => 0
  | Event.schedule_delayed_work _ => n + 1
  | _ => n

/-- Number of `schedule_delayed_work` calls since the last
`cancel_delayed_work` of a trace. -/
def armed_count (t : List Event) : Nat := t.foldl armed_step 0

/-- Every `usb3813_dbg_enable_write(0)` of the sequence is made while
`debug_enabled` is true. -/
def exits_debug_in_debug (env : Env) (info : usb3813_info) : List Call → Bool
  | [] => true
  | c :: cs =>
    (match c with
      | Call.dbg_enable_write 0 => info.debug_enabled
      | _ => true) &&
    exits_debug_in_debug env (step env info c).2 cs

/-- Everything that can happen to a bound device: the calls of `Call`, the
expiry of the attach timer (`fire`), and the debugfs and sysfs accesses. -/
inductive Op where
  | call (c : Call)
  | fire (boost_val : Nat)
  | get_reg
  | set_reg (val : Nat)
  | set_address (addr : Nat)
  | dbg_attach_write (val : Nat)
  | hsic_vdd_store (mode : Option Nat) (count : Nat)
deriving DecidableEq, Repr

/-- One operation.  `fire` does nothing unless the attach work is queued; it
then takes the work off the queue and runs `usb3813_attach_w`.  `set_address`
is the store into the `u16` behind the debugfs `address` file. -/
def exec (env : Env) (info : usb3813_info) : Op → usb3813_info
  | Op.call c => (step env info c).2
  | Op.fire boost_val =>
    match info.usb3813_attach_work with
    | none => info
    | some _ => usb3813_attach_w env { info with usb3813_attach_work := none } boost_val
  | Op.get_reg => (get_reg env info).2.2
  | Op.set_reg val => (set_reg env info val).2
  | Op.set_address addr => { info with debug_address := addr % 65536 }
  | Op.dbg_attach_write val => (usb3813_dbg_attach_write env info val).2
  | Op.hsic_vdd_store mode count => (usb3813_hsic_vdd_store env info mode count).2

/-- A sequence of operations, left to right. -/
def steps (env : Env) (info : usb3813_info) : List Op → usb3813_info
  | [] => info
  | op :: ops => steps env (exec env info op) ops

/-- Kernel calls that touch neither the regulator nor the delayed work. -/
def Event.is_passive : Event → Bool
  | Event.cancel_delayed_work => false
  | Event.schedule_delayed_work _ => false
  | Event.regulator_enable _ => false
  | Event.regulator_disable _ => false
  | _ => true

/-- State `b` is state `a` after calls that touch neither the regulator nor
the delayed work: `hub_enabled`, `hsic_enabled` and the queued work are the
same and the trace has grown by passive events only. -/
def passive_ext (a b : usb3813_info) : Prop :=
  b.hub_enabled = a.hub_enabled ∧ b.hsic_enabled = a.hsic_enabled ∧
  b.usb3813_attach_work = a.usb3813_attach_work ∧
  ∃ u : List Event, b.trace = a.trace ++ u ∧ u.all Event.is_passive = true

/-! ## Bus codec: lemmas -/

theorem locked_i2c_transfer_eq (env : Env) (info : usb3813_info) (msgs : List i2c_msg)
    (num : Nat) :
    locked_i2c_transfer env info msgs num =
      (env.i2c_transfer (info.trace.length + 1),
       { info with trace := info.trace ++
          [Event.mutex_lock,
           Event.i2c_transfer msgs num (env.i2c_transfer (info.trace.length + 1)).ret,
           Event.mutex_unlock] }) := by
  simp [locked_i2c_transfer, emit]

theorem byte_hi (x : Nat) (h : x < 65536) : (x >>> 8) &&& 0xFF = x >>> 8 := by
  have h1 : x >>> 8 < 256 := by
    rw [Nat.shiftRight_eq_div_pow]; omega
  have h2 : (0xFF : Nat) = 2 ^ 8 - 1 := by norm_num
  rw [h2, Nat.and_pow_two_sub_one_eq_mod]
  exact Nat.mod_eq_of_lt h1

theorem usb3813_write_command_eq (env : Env) (info : usb3813_info) (command : Nat) :
    usb3813_write_command env info command =
      ((if (env.i2c_transfer (info.trace.length + 1)).ret < 0 then
          (env.i2c_transfer (info.trace.length + 1)).ret
        else if (env.i2c_transfer (info.trace.length + 1)).ret ≠ 1 then - EIO else 0),
       { info with trace := info.trace ++
          [Event.mutex_lock,
           Event.i2c_transfer
             [{ addr := info.addr, flags := 0, len := 3,
                buf := [(command >>> 8) &&& 0xFF, command &&& 0xFF, 0x00] }] 1
             (env.i2c_transfer (info.trace.length + 1)).ret,
           Event.mutex_unlock] }) := by
  unfold usb3813_write_command
  simp only [locked_i2c_transfer_eq, List.length_cons, List.length_nil]
  split_ifs <;> rfl

/-- C6. `usb3813_write_command` submits exactly one exchange, a single write
message with the three bytes `[cmd >> 8, cmd & 0xFF, 0x00]`, under the mutex;
with `r` the transport's answer it returns 0 iff `r = 1`, `r` itself when
`r < 0`, and `-EIO` for every other `r`. -/
theorem usb3813_write_command_frame_and_result (env : Env) (info : usb3813_info)
    (cmd : Nat) (r : Int) (hcmd : cmd < 65536)
    (hr : (env.i2c_transfer (info.trace.length + 1)).ret = r) :
    (usb3813_write_command env info cmd).2 =
        { info with trace := info.trace ++
            [Event.mutex_lock,
             Event.i2c_transfer
               [{ addr := info.addr, flags := 0, len := 3,
                  buf := [cmd >>> 8, cmd &&& 0xFF, 0x00] }] 1 r,
             Event.mutex_unlock] } ∧
    i2c_count (usb3813_write_command env info cmd).2.trace = i2c_count info.trace + 1 ∧
    ((usb3813_write_command env info cmd).1 = 0 ↔ r = 1) ∧
    (r < 0 → (usb3813_write_command env info cmd).1 = r) ∧
    (0 ≤ r → r ≠ 1 → (usb3813_write_command env info cmd).1 = - EIO) := by
  rw [usb3813_write_command_eq, hr, byte_hi cmd hcmd]
  refine ⟨rfl, ?_, ?_, ?_, ?_⟩
  · simp [i2c_count, List.filter_append, Event.is_i2c, List.filter]
  · show (if r < 0 then r else if r ≠ 1 then - EIO else 0) = 0 ↔ r = 1
    unfold EIO
    split_ifs with h1 h2
    · constructor <;> intro h <;> omega
    · simp [h2]
    · have h3 : r = 1 := not_not.mp h2
      simp [h3]
  · intro h
    show (if r < 0 then r else if r ≠ 1 then - EIO else 0) = r
    simp [h]
  · intro h0 h1
    show (if r < 0 then r else if r ≠ 1 then - EIO else 0) = - EIO
    simp [h1, not_lt.mpr h0]

theorem usb3813_write_command_frame_and_result_witness :
    (0xAA55 : Nat) < 65536 ∧
    (env_ok.i2c_transfer ((usb3813_info.init 0x2d).trace.length + 1)).ret = 1 ∧
    ((usb3813_write_command env_ok (usb3813_info.init 0x2d) 0xAA55).1 = 0 ↔ (1 : Int) = 1) :=
  ⟨by decide, by decide,
   (usb3813_write_command_frame_and_result env_ok (usb3813_info.init 0x2d) 0xAA55 1
      (by decide) (by decide)).2.2.1⟩


theorem usb3813_write_cfg_reg_eq (env : Env) (info : usb3813_info) (reg val : Nat) :
    usb3813_write_cfg_reg env info reg val =
      (if (env.i2c_transfer (info.trace.length + 1)).ret < 0 then
          ((env.i2c_transfer (info.trace.length + 1)).ret,
           { info with trace := info.trace ++
              [Event.mutex_lock,
               Event.i2c_transfer
                 [{ addr := info.addr, flags := 0, len := 8,
                    buf := [0x00, 0x00, 0x05, 0x00, 0x01, (reg >>> 8) &&& 0xFF,
                            reg &&& 0xFF, val % 256] }] 1
                 (env.i2c_transfer (info.trace.length + 1)).ret,
               Event.mutex_unlock] })
        else if (env.i2c_transfer (info.trace.length + 1)).ret ≠ 1 then
          (- EIO,
           { info with trace := info.trace ++
              [Event.mutex_lock,
               Event.i2c_transfer
                 [{ addr := info.addr, flags := 0, len := 8,
                    buf := [0x00, 0x00, 0x05, 0x00, 0x01, (reg >>> 8) &&& 0xFF,
                            reg &&& 0xFF, val % 256] }] 1
                 (env.i2c_transfer (info.trace.length + 1)).ret,
               Event.mutex_unlock] })
        else
          usb3813_write_command env
            { info with trace := info.trace ++
              [Event.mutex_lock,
               Event.i2c_transfer
                 [{ addr := info.addr, flags := 0, len := 8,
                    buf := [0x00, 0x00, 0x05, 0x00, 0x01, (reg >>> 8) &&& 0xFF,
                            reg &&& 0xFF, val % 256] }] 1
                 (env.i2c_transfer (info.trace.length + 1)).ret,
               Event.mutex_unlock] } CFG_ACCESS) := by
  unfold usb3813_write_cfg_reg
  simp only [locked_i2c_transfer_eq, List.length_cons, List.length_nil]

theorem i2c_count_append (t u : List Event) :
    i2c_count (t ++ u) = i2c_count t + i2c_count u := by
  simp [i2c_count, List.filter_append]

/-- C5. `usb3813_write_cfg_reg` first submits one one-message write of the
eight bytes `[00 00 05 00 01 addr_hi addr_lo val]`.  With `r1` the answer to
that exchange: a negative `r1` is returned as is and any other count but 1
gives `-EIO`, in both cases without a commit; for `r1 = 1` it calls
`usb3813_write_command(CFG_ACCESS)` once (one more exchange `[99 37 00]`,
answered `r2`) and returns that result.  It returns 0 iff both answers are 1
and never issues more than two exchanges. -/
theorem usb3813_write_cfg_reg_frame_and_commit (env : Env) (info : usb3813_info)
    (addr val : Nat) (r1 r2 : Int) (haddr : addr < 65536) (hval : val < 256)
    (h1 : (env.i2c_transfer (info.trace.length + 1)).ret = r1)
    (h2 : (env.i2c_transfer (info.trace.length + 4)).ret = r2) :
    let frame : List Event :=
      [Event.mutex_lock,
       Event.i2c_transfer
         [{ addr := info.addr, flags := 0, len := 8,
            buf := [0x00, 0x00, 0x05, 0x00, 0x01, addr >>> 8, addr &&& 0xFF, val] }] 1 r1,
       Event.mutex_unlock]
    let commit : List Event :=
      [Event.mutex_lock,
       Event.i2c_transfer
         [{ addr := info.addr, flags := 0, len := 3, buf := [0x99, 0x37, 0x00] }] 1 r2,
       Event.mutex_unlock]
    (r1 < 0 → usb3813_write_cfg_reg env info addr val =
        (r1, { info with trace := info.trace ++ frame })) ∧
    (0 ≤ r1 → r1 ≠ 1 → usb3813_write_cfg_reg env info addr val =
        (- EIO, { info with trace := info.trace ++ frame })) ∧
    (r1 = 1 →
      usb3813_write_cfg_reg env info addr val =
        usb3813_write_command env { info with trace := info.trace ++ frame } CFG_ACCESS ∧
      (usb3813_write_cfg_reg env info addr val).2 =
        { info with trace := info.trace ++ frame ++ commit }) ∧
    ((usb3813_write_cfg_reg env info addr val).1 = 0 ↔ r1 = 1 ∧ r2 = 1) ∧
    i2c_count (usb3813_write_cfg_reg env info addr val).2.trace ≤ i2c_count info.trace + 2 := by
  intro frame commit
  have hlen : (info.trace ++ frame).length + 1 = info.trace.length + 4 := by
    simp [frame]
  have hcmd : usb3813_write_command env { info with trace := info.trace ++ frame } CFG_ACCESS =
      ((if r2 < 0 then r2 else if r2 ≠ 1 then - EIO else 0),
       { info with trace := info.trace ++ frame ++ commit }) := by
    rw [usb3813_write_command_eq]
    simp only [hlen, h2]
    rfl
  have hframe : i2c_count frame = 1 := rfl
  have hcommit : i2c_count commit = 1 := rfl
  rw [usb3813_write_cfg_reg_eq, h1, byte_hi addr haddr, Nat.mod_eq_of_lt hval]
  refine ⟨?_, ?_, ?_, ?_, ?_⟩
  · intro h
    simp [h, frame]
  · intro h0 h
    simp [h, not_lt.mpr h0, frame]
  · rintro rfl
    simp only [show ¬ ((1 : Int) < 0) by decide, if_false, ne_eq, not_true_eq_false]
    exact ⟨trivial, by rw [hcmd]⟩
  · by_cases hneg : r1 < 0
    · simp only [hneg, if_true]
      constructor
      · intro h; omega
      · rintro ⟨h, -⟩; omega
    · by_cases hone : r1 = 1
      · subst hone
        simp only [show ¬ ((1 : Int) < 0) by decide, if_false, ne_eq, not_true_eq_false]
        rw [hcmd]
        show (if r2 < 0 then r2 else if r2 ≠ 1 then - EIO else 0) = 0 ↔ True ∧ r2 = 1
        unfold EIO
        split_ifs with a b
        · constructor
          · intro h; omega
          · rintro ⟨-, h⟩; omega
        · simp [b]
        · simp [not_not.mp b]
      · simp only [hneg, if_false, ne_eq, hone, not_false_eq_true, if_true]
        unfold EIO
        simp [hone]
  · split_ifs with a b
    · simp only [i2c_count_append, hframe]; omega
    · simp only [i2c_count_append, hframe]; omega
    · rw [hcmd]
      simp only [i2c_count_append, hframe, hcommit]; omega

theorem usb3813_write_cfg_reg_frame_and_commit_witness :
    (0x68CA : Nat) < 65536 ∧ (3 : Nat) < 256 ∧
    (env_ok.i2c_transfer ((usb3813_info.init 0x2d).trace.length + 1)).ret = 1 ∧
    (env_ok.i2c_transfer ((usb3813_info.init 0x2d).trace.length + 4)).ret = 1 ∧
    ((usb3813_write_cfg_reg env_ok (usb3813_info.init 0x2d) 0x68CA 3).1 = 0 ↔
      (1 : Int) = 1 ∧ (1 : Int) = 1) :=
  ⟨by decide, by decide, by decide, by decide,
   (usb3813_write_cfg_reg_frame_and_commit env_ok (usb3813_info.init 0x2d) 0x68CA 3 1 1
      (by decide) (by decide) (by decide) (by decide)).2.2.2.1⟩


theorem usb3813_read_cfg_reg_eq (env : Env) (info : usb3813_info) (reg : Nat)
    (r1 r2 : Int) (r3 : i2c_result)
    (h1 : (env.i2c_transfer (info.trace.length + 1)).ret = r1)
    (h2 : (env.i2c_transfer (info.trace.length + 4)).ret = r2)
    (h3 : env.i2c_transfer (info.trace.length + 7) = r3) :
    usb3813_read_cfg_reg env info reg =
      (if r1 < 0 then
         (r1, { info with trace := info.trace ++
            [Event.mutex_lock,
             Event.i2c_transfer
               [{ addr := info.addr, flags := 0, len := 7,
                  buf := [0x00, 0x00, 0x04, 0x01, 0x01, (reg >>> 8) &&& 0xFF,
                          reg &&& 0xFF] }] 1 r1,
             Event.mutex_unlock] })
       else if r1 ≠ 1 then
         (- EIO, { info with trace := info.trace ++
            [Event.mutex_lock,
             Event.i2c_transfer
               [{ addr := info.addr, flags := 0, len := 7,
                  buf := [0x00, 0x00, 0x04, 0x01, 0x01, (reg >>> 8) &&& 0xFF,
                          reg &&& 0xFF] }] 1 r1,
             Event.mutex_unlock] })
       else if (if r2 < 0 then r2 else if r2 ≠ 1 then - EIO else 0) < 0 then
         ((if r2 < 0 then r2 else if r2 ≠ 1 then - EIO else 0),
          { info with trace := info.trace ++
            [Event.mutex_lock,
             Event.i2c_transfer
               [{ addr := info.addr, flags := 0, len := 7,
                  buf := [0x00, 0x00, 0x04, 0x01, 0x01, (reg >>> 8) &&& 0xFF,
                          reg &&& 0xFF] }] 1 r1,
             Event.mutex_unlock] ++
            [Event.mutex_lock,
             Event.i2c_transfer
               [{ addr := info.addr, flags := 0, len := 3, buf := [0x99, 0x37, 0x00] }] 1 r2,
             Event.mutex_unlock] })
       else
         ((if r3.ret < 0 then r3.ret else ((r3.val1 % 256 : Nat) : Int)),
          { info with trace := info.trace ++
            [Event.mutex_lock,
             Event.i2c_transfer
               [{ addr := info.addr, flags := 0, len := 7,
                  buf := [0x00, 0x00, 0x04, 0x01, 0x01, (reg >>> 8) &&& 0xFF,
                          reg &&& 0xFF] }] 1 r1,
             Event.mutex_unlock] ++
            [Event.mutex_lock,
             Event.i2c_transfer
               [{ addr := info.addr, flags := 0, len := 3, buf := [0x99, 0x37, 0x00] }] 1 r2,
             Event.mutex_unlock] ++
            [Event.mutex_lock,
             Event.i2c_transfer
               [{ addr := info.addr, flags := 0, len := 2,
                  buf := [0x00, 0x04, 0x04, 0x01, 0x01, (reg >>> 8) &&& 0xFF,
                          reg &&& 0xFF] },
                { addr := info.addr, flags := I2C_M_RD, len := 2, buf := [] }] 2 r3.ret,
             Event.mutex_unlock] })) := by
  have p2 : info.trace.length + 3 + 1 = info.trace.length + 4 := rfl
  have p3 : info.trace.length + 3 + 3 + 1 = info.trace.length + 7 := rfl
  unfold usb3813_read_cfg_reg
  simp only [locked_i2c_transfer_eq, usb3813_write_command_eq, List.length_append,
    List.length_cons, List.length_nil, h1, p2, h2, p3, h3, Nat.zero_add, Nat.reduceAdd]
  split_ifs <;> rfl


/-- C3. `usb3813_read_cfg_reg` issues, each under the mutex and in this order,
the select frame `[00 00 04 01 01 addr_hi addr_lo]`, the commit command
`[99 37 00]` and one two-message exchange (write `[00 04]`, read 2 bytes).
With `r1`, `r2`, `r3` the answers: nothing follows a failed select (`r1 ≠ 1`)
or a failed commit (`r2 ≠ 1`), both of which return a negative value; when
all three succeed the result is the second byte of the read, within 0..255. -/
theorem usb3813_read_cfg_reg_sequence (env : Env) (info : usb3813_info) (addr : Nat)
    (r1 r2 : Int) (r3 : i2c_result) (haddr : addr < 65536)
    (h1 : (env.i2c_transfer (info.trace.length + 1)).ret = r1)
    (h2 : (env.i2c_transfer (info.trace.length + 4)).ret = r2)
    (h3 : env.i2c_transfer (info.trace.length + 7) = r3) :
    let select : List Event :=
      [Event.mutex_lock,
       Event.i2c_transfer
         [{ addr := info.addr, flags := 0, len := 7,
            buf := [0x00, 0x00, 0x04, 0x01, 0x01, addr >>> 8, addr &&& 0xFF] }] 1 r1,
       Event.mutex_unlock]
    let commit : List Event :=
      [Event.mutex_lock,
       Event.i2c_transfer
         [{ addr := info.addr, flags := 0, len := 3, buf := [0x99, 0x37, 0x00] }] 1 r2,
       Event.mutex_unlock]
    let fetch_wr : i2c_msg :=
      { addr := info.addr, flags := 0, len := 2,
        buf := [0x00, 0x04, 0x04, 0x01, 0x01, addr >>> 8, addr &&& 0xFF] }
    let fetch_rd : i2c_msg := { addr := info.addr, flags := I2C_M_RD, len := 2, buf := [] }
    let fetch : List Event :=
      [Event.mutex_lock, Event.i2c_transfer [fetch_wr, fetch_rd] 2 r3.ret, Event.mutex_unlock]
    fetch_wr.payload = [0x00, 0x04] ∧
    (r1 ≠ 1 →
      (usb3813_read_cfg_reg env info addr).2 = { info with trace := info.trace ++ select } ∧
      (usb3813_read_cfg_reg env info addr).1 < 0) ∧
    (r1 = 1 → r2 ≠ 1 →
      (usb3813_read_cfg_reg env info addr).2 =
        { info with trace := info.trace ++ select ++ commit } ∧
      (usb3813_read_cfg_reg env info addr).1 < 0) ∧
    (r1 = 1 → r2 = 1 →
      (usb3813_read_cfg_reg env info addr).2 =
        { info with trace := info.trace ++ select ++ commit ++ fetch }) ∧
    (r1 = 1 → r2 = 1 → r3.ret = 2 →
      (usb3813_read_cfg_reg env info addr).1 = ((r3.val1 % 256 : Nat) : Int) ∧
      0 ≤ (usb3813_read_cfg_reg env info addr).1 ∧
      (usb3813_read_cfg_reg env info addr).1 ≤ 255) := by
  intro select commit fetch_wr fetch_rd fetch
  rw [usb3813_read_cfg_reg_eq env info addr r1 r2 r3 h1 h2 h3, byte_hi addr haddr]
  refine ⟨rfl, ?_, ?_, ?_, ?_⟩
  · intro hne
    by_cases hneg : r1 < 0
    · rw [if_pos hneg]
      exact ⟨rfl, hneg⟩
    · simp only [hneg, if_false, ne_eq, hne, not_false_eq_true, if_true]
      exact ⟨trivial, by decide⟩
  · rintro rfl hne
    have hcode : (if r2 < 0 then r2 else if r2 ≠ 1 then - EIO else 0) < 0 := by
      unfold EIO
      split_ifs <;> omega
    rw [if_neg (by decide), if_neg (by simp), if_pos hcode]
    exact ⟨rfl, hcode⟩
  · rintro rfl rfl
    simp only [show ¬ ((1 : Int) < 0) by decide, if_false, ne_eq, not_true_eq_false,
      show ¬ ((0 : Int) < 0) by decide]
  · rintro rfl rfl h
    simp only [show ¬ ((1 : Int) < 0) by decide, if_false, ne_eq, not_true_eq_false,
      show ¬ ((0 : Int) < 0) by decide, h, show ¬ ((2 : Int) < 0) by decide]
    refine ⟨trivial, ?_, ?_⟩
    · exact Int.ofNat_nonneg _
    · have hlt : r3.val1 % 256 < 256 := Nat.mod_lt _ (by decide)
      omega

theorem usb3813_read_cfg_reg_sequence_witness :
    (0x68CA : Nat) < 65536 ∧
    (env_ok.i2c_transfer ((usb3813_info.init 0x2d).trace.length + 1)).ret = 1 ∧
    (env_ok.i2c_transfer ((usb3813_info.init 0x2d).trace.length + 4)).ret = 1 ∧
    env_ok.i2c_transfer ((usb3813_info.init 0x2d).trace.length + 7) = ⟨2, 0x12, 0x34⟩ ∧
    (usb3813_read_cfg_reg env_ok (usb3813_info.init 0x2d) 0x68CA).1 = 0x34 :=
  ⟨by decide, by decide, by decide, by decide,
   ((usb3813_read_cfg_reg_sequence env_ok (usb3813_info.init 0x2d) 0x68CA 1 1 ⟨2, 0x12, 0x34⟩
      (by decide) (by decide) (by decide) (by decide)).2.2.2.2 rfl rfl rfl).1⟩

/-- C4. On a transport whose fetch exchange completes one message of the two
submitted (and reports no error), `usb3813_read_cfg_reg` returns the byte found
in the receive buffer, `0x34`, a value in 0..255 and not an error. -/
theorem usb3813_read_cfg_reg_short_fetch_no_error :
    (env_short_fetch.i2c_transfer 7).ret = 1 ∧
    (usb3813_read_cfg_reg env_short_fetch (usb3813_info.init 0x2d) 0x68CA).1 = 0x34 ∧
    ¬ (usb3813_read_cfg_reg env_short_fetch (usb3813_info.init 0x2d) 0x68CA).1 < 0 := by
  decide

/-- C2. With debug mode on and a transport that fails every exchange with
`-5`, `usb3813_read_cfg_reg` returns `-5` while `get_reg` returns 0 (success)
and stores the low byte of the error, 251, as the register value. -/
theorem get_reg_bus_error_reported_as_success :
    info_debug.debug_enabled = true ∧
    (usb3813_read_cfg_reg env_bus_error info_debug info_debug.debug_address).1 = -5 ∧
    (get_reg env_bus_error info_debug).1 = 0 ∧
    (get_reg env_bus_error info_debug).2.1 = some 251 := by
  decide

/-- C1. From the probed state, entering debug mode and then enabling the hub
are both accepted (each returns 0), and afterwards `hub_enabled` and
`debug_enabled` are both true. -/
theorem hub_enabled_with_debug_enabled :
    (step env_ok (usb3813_info.init 0x2d) (Call.dbg_enable_write 1)).1 = 0 ∧
    (step env_ok (step env_ok (usb3813_info.init 0x2d) (Call.dbg_enable_write 1)).2
      (Call.enable_hub true usb_ext_path.USB_EXT_PATH_BRIDGE)).1 = 0 ∧
    (run env_ok (usb3813_info.init 0x2d)
      [Call.dbg_enable_write 1,
       Call.enable_hub true usb_ext_path.USB_EXT_PATH_BRIDGE]).hub_enabled = true ∧
    (run env_ok (usb3813_info.init 0x2d)
      [Call.dbg_enable_write 1,
       Call.enable_hub true usb_ext_path.USB_EXT_PATH_BRIDGE]).debug_enabled = true := by
  decide


/-! ## Hub life cycle: theorems -/

theorem set_hsic_state_on (env : Env) (info : usb3813_info) (h : info.hsic_enabled = false) :
    set_hsic_state env info true =
      (env.regulator_enable info.trace.length,
       { info with
          hsic_enabled := decide (env.regulator_enable info.trace.length = 0),
          trace := info.trace ++
            [Event.regulator_enable (env.regulator_enable info.trace.length)] }) := by
  unfold set_hsic_state
  by_cases hr : env.regulator_enable info.trace.length = 0
  · simp [h, hr, emit]
  · simp [h, hr, emit]

theorem set_hsic_state_off (env : Env) (info : usb3813_info) (h : info.hsic_enabled = true) :
    set_hsic_state env info false =
      (env.regulator_disable info.trace.length,
       { info with
          hsic_enabled := !decide (env.regulator_disable info.trace.length = 0),
          trace := info.trace ++
            [Event.regulator_disable (env.regulator_disable info.trace.length)] }) := by
  unfold set_hsic_state
  by_cases hr : env.regulator_disable info.trace.length = 0
  · simp [h, hr, emit]
  · simp [h, hr, emit]

theorem set_hsic_state_same (env : Env) (info : usb3813_info) (enable : Bool)
    (h : info.hsic_enabled = enable) :
    set_hsic_state env info enable = (env.uninit info.trace.length, info) := by
  unfold set_hsic_state
  cases enable <;> simp [h]

theorem set_hsic_state_hub_enabled (env : Env) (info : usb3813_info) (enable : Bool) :
    (set_hsic_state env info enable).2.hub_enabled = info.hub_enabled := by
  unfold set_hsic_state
  simp only []
  split_ifs <;> rfl

theorem usb3813_enable_hub_on_eq (env : Env) (info : usb3813_info) (path : usb_ext_path)
    (hdis : info.hub_enabled = false)
    (hclk : env.clk_prepare_enable (info.trace.length + 1) = 0) :
    usb3813_enable_hub env (some info) true path =
      if path = usb_ext_path.USB_EXT_PATH_BRIDGE then
        (0, some (set_hsic_state env
          { info with
              hub_enabled := true
              usb3813_attach_work := some 1000
              trace := info.trace ++
                [Event.cancel_delayed_work, Event.clk_prepare_enable 0,
                 Event.gpio_set_value 1, Event.schedule_delayed_work 1000] } true).2)
      else
        (0, some
          { info with
              hub_enabled := true
              usb3813_attach_work := some 1000
              trace := info.trace ++
                [Event.cancel_delayed_work, Event.clk_prepare_enable 0,
                 Event.gpio_set_value 1, Event.schedule_delayed_work 1000] }) := by
  simp [usb3813_enable_hub, cancel_delayed_work, schedule_delayed_work, emit, hdis, hclk]

theorem usb3813_enable_hub_clk_fail_eq (env : Env) (info : usb3813_info)
    (path : usb_ext_path) (hdis : info.hub_enabled = false)
    (hc : env.clk_prepare_enable (info.trace.length + 1) ≠ 0) :
    usb3813_enable_hub env (some info) true path =
      (- EFAULT, some { info with
          hub_enabled := true
          usb3813_attach_work := none
          trace := info.trace ++
            [Event.cancel_delayed_work,
             Event.clk_prepare_enable (env.clk_prepare_enable (info.trace.length + 1))] }) := by
  simp [usb3813_enable_hub, cancel_delayed_work, emit, hdis, hc]

theorem usb3813_enable_hub_true_flag (env : Env) (info : usb3813_info) (path : usb_ext_path) :
    ∃ info1, (usb3813_enable_hub env (some info) true path).2 = some info1 ∧
      info1.hub_enabled = true := by
  cases hh : info.hub_enabled
  · by_cases hc : env.clk_prepare_enable (info.trace.length + 1) = 0
    · rw [usb3813_enable_hub_on_eq env info path hh hc]
      split_ifs
      · exact ⟨_, rfl, by rw [set_hsic_state_hub_enabled]⟩
      · exact ⟨_, rfl, rfl⟩
    · rw [usb3813_enable_hub_clk_fail_eq env info path hh hc]
      exact ⟨_, rfl, rfl⟩
  · exact ⟨info, by simp [usb3813_enable_hub, hh], hh⟩

/-- C7. Enabling a disabled hub whose clock enable succeeds returns 0 and
performs, in order: cancel the attach work, enable the clock (once), drive the
reset line to 1, queue the attach work with 1000 ms.  `set_hsic_state(true)`
follows iff the path is the bridge path; there the regulator is enabled if the
rail was off, and a failing regulator changes neither the return value nor any
of the other effects. -/
theorem usb3813_enable_hub_success (env : Env) (info : usb3813_info) (path : usb_ext_path)
    (hdis : info.hub_enabled = false)
    (hclk : env.clk_prepare_enable (info.trace.length + 1) = 0) :
    let mid : usb3813_info :=
      { info with
          hub_enabled := true
          usb3813_attach_work := some 1000
          trace := info.trace ++
            [Event.cancel_delayed_work, Event.clk_prepare_enable 0,
             Event.gpio_set_value 1, Event.schedule_delayed_work 1000] }
    (path ≠ usb_ext_path.USB_EXT_PATH_BRIDGE →
      usb3813_enable_hub env (some info) true path = (0, some mid)) ∧
    (path = usb_ext_path.USB_EXT_PATH_BRIDGE →
      usb3813_enable_hub env (some info) true path =
        (0, some (set_hsic_state env mid true).2)) ∧
    (path = usb_ext_path.USB_EXT_PATH_BRIDGE → info.hsic_enabled = true →
      usb3813_enable_hub env (some info) true path = (0, some mid)) ∧
    (path = usb_ext_path.USB_EXT_PATH_BRIDGE → info.hsic_enabled = false →
      usb3813_enable_hub env (some info) true path =
        (0, some { mid with
          hsic_enabled := decide (env.regulator_enable (info.trace.length + 4) = 0)
          trace := mid.trace ++
            [Event.regulator_enable (env.regulator_enable (info.trace.length + 4))] })) := by
  intro mid
  have hbody : usb3813_enable_hub env (some info) true path =
      if path = usb_ext_path.USB_EXT_PATH_BRIDGE then (0, some (set_hsic_state env mid true).2)
      else (0, some mid) := usb3813_enable_hub_on_eq env info path hdis hclk
  have hlen : mid.trace.length = info.trace.length + 4 := by simp [mid]
  refine ⟨?_, ?_, ?_, ?_⟩
  · intro hp
    rw [hbody, if_neg hp]
  · intro hp
    rw [hbody, if_pos hp]
  · intro hp hh
    rw [hbody, if_pos hp, set_hsic_state_same env mid true hh]
  · intro hp hh
    rw [hbody, if_pos hp, set_hsic_state_on env mid hh, hlen]

theorem usb3813_enable_hub_success_witness :
    (usb3813_info.init 0x2d).hub_enabled = false ∧
    env_regulator_fail.clk_prepare_enable ((usb3813_info.init 0x2d).trace.length + 1) = 0 ∧
    usb3813_enable_hub env_regulator_fail (some (usb3813_info.init 0x2d)) true
        usb_ext_path.USB_EXT_PATH_BRIDGE =
      (0, some { usb3813_info.init 0x2d with
          hub_enabled := true
          usb3813_attach_work := some 1000
          hsic_enabled := false
          trace := [Event.cancel_delayed_work, Event.clk_prepare_enable 0,
             Event.gpio_set_value 1, Event.schedule_delayed_work 1000,
             Event.regulator_enable (-22)] }) :=
  ⟨rfl, rfl,
   (usb3813_enable_hub_success env_regulator_fail (usb3813_info.init 0x2d)
      usb_ext_path.USB_EXT_PATH_BRIDGE rfl rfl).2.2.2 rfl rfl⟩

/-- C8. Enabling a disabled hub whose clock enable fails (returns `c ≠ 0`)
returns `-EFAULT`, leaves `hub_enabled` true and the attach work cancelled,
and makes no call after the clock enable: no reset-line write, no work queued,
no regulator operation, whatever the path. -/
theorem usb3813_enable_hub_clock_failure (env : Env) (info : usb3813_info)
    (path : usb_ext_path) (c : Int)
    (hdis : info.hub_enabled = false)
    (hclk : env.clk_prepare_enable (info.trace.length + 1) = c) (hc : c ≠ 0) :
    usb3813_enable_hub env (some info) true path =
      (- EFAULT, some { info with
          hub_enabled := true
          usb3813_attach_work := none
          trace := info.trace ++ [Event.cancel_delayed_work, Event.clk_prepare_enable c] }) := by
  subst hclk
  exact usb3813_enable_hub_clk_fail_eq env info path hdis hc

theorem usb3813_enable_hub_clock_failure_witness :
    (usb3813_info.init 0x2d).hub_enabled = false ∧
    env_clk_fail.clk_prepare_enable ((usb3813_info.init 0x2d).trace.length + 1) = -22 ∧
    (-22 : Int) ≠ 0 ∧
    usb3813_enable_hub env_clk_fail (some (usb3813_info.init 0x2d)) true
        usb_ext_path.USB_EXT_PATH_BRIDGE =
      (- EFAULT, some { usb3813_info.init 0x2d with
          hub_enabled := true
          usb3813_attach_work := none
          trace := [] ++ [Event.cancel_delayed_work, Event.clk_prepare_enable (-22)] }) :=
  ⟨rfl, rfl, by decide,
   usb3813_enable_hub_clock_failure env_clk_fail (usb3813_info.init 0x2d)
     usb_ext_path.USB_EXT_PATH_BRIDGE (-22) rfl rfl (by decide)⟩

/-- C9. A request for the state the hub is already in returns `-EINPROGRESS`
and leaves the whole state, trace included, as it was (no kernel call at all);
and the second of two consecutive enable calls is rejected in this way,
whatever the first one did. -/
theorem usb3813_enable_hub_noop_rejected (env : Env) (info : usb3813_info) (enable : Bool)
    (path path2 : usb_ext_path) :
    (enable = info.hub_enabled →
      usb3813_enable_hub env (some info) enable path = (- EINPROGRESS, some info)) ∧
    usb3813_enable_hub env (usb3813_enable_hub env (some info) true path).2 true path2 =
      (- EINPROGRESS, (usb3813_enable_hub env (some info) true path).2) := by
  constructor
  · intro h
    simp [usb3813_enable_hub, h]
  · obtain ⟨info1, h1, hflag⟩ := usb3813_enable_hub_true_flag env info path
    rw [h1]
    simp [usb3813_enable_hub, hflag]

theorem usb3813_enable_hub_noop_rejected_witness :
    false = (usb3813_info.init 0x2d).hub_enabled ∧
    usb3813_enable_hub env_ok (some (usb3813_info.init 0x2d)) false
        usb_ext_path.USB_EXT_PATH_BRIDGE =
      (- EINPROGRESS, some (usb3813_info.init 0x2d)) :=
  ⟨rfl,
   (usb3813_enable_hub_noop_rejected env_ok (usb3813_info.init 0x2d) false
      usb_ext_path.USB_EXT_PATH_BRIDGE usb_ext_path.USB_EXT_PATH_BRIDGE).1 rfl⟩

/-- C10. Disabling an enabled hub returns 0 and performs, in order: cancel the
attach work, drive the reset line to 0, disable the clock (once), then
`set_hsic_state(false)`, whatever the path.  The regulator is disabled iff the
rail was on, `hsic_enabled` ends false when no disable was needed or the
disable succeeded, `hub_enabled` ends false, no work stays queued and no bus
exchange is issued. -/
theorem usb3813_enable_hub_disable (env : Env) (info : usb3813_info) (path : usb_ext_path)
    (hen : info.hub_enabled = true) :
    let mid : usb3813_info :=
      { info with
          hub_enabled := false
          usb3813_attach_work := none
          trace := info.trace ++
            [Event.cancel_delayed_work, Event.gpio_set_value 0,
             Event.clk_disable_unprepare] }
    usb3813_enable_hub env (some info) false path =
      (0, some (set_hsic_state env mid false).2) ∧
    (info.hsic_enabled = false →
      usb3813_enable_hub env (some info) false path = (0, some mid)) ∧
    (info.hsic_enabled = true →
      usb3813_enable_hub env (some info) false path =
        (0, some { mid with
          hsic_enabled := !decide (env.regulator_disable (info.trace.length + 3) = 0)
          trace := mid.trace ++
            [Event.regulator_disable (env.regulator_disable (info.trace.length + 3))] })) ∧
    (info.hsic_enabled = false ∨ env.regulator_disable (info.trace.length + 3) = 0 →
      (usb3813_enable_hub env (some info) false path).2.map usb3813_info.hsic_enabled =
        some false) ∧
    (usb3813_enable_hub env (some info) false path).2.map usb3813_info.hub_enabled =
      some false ∧
    (usb3813_enable_hub env (some info) false path).2.map usb3813_info.usb3813_attach_work =
      some none ∧
    (usb3813_enable_hub env (some info) false path).2.map
        (fun i => i2c_count i.trace) = some (i2c_count info.trace) := by
  intro mid
  have hbody : usb3813_enable_hub env (some info) false path =
      (0, some (set_hsic_state env mid false).2) := by
    simp [usb3813_enable_hub, cancel_delayed_work, emit, hen, mid]
  have hlen : mid.trace.length = info.trace.length + 3 := by simp [mid]
  have hcount : i2c_count mid.trace = i2c_count info.trace := by
    simp [mid, i2c_count, List.filter_append, List.filter, Event.is_i2c]
  rw [hbody]
  cases hs : info.hsic_enabled
  · rw [set_hsic_state_same env mid false hs]
    refine ⟨rfl, fun _ => rfl, fun h => absurd h (by decide), fun _ => ?_, rfl, rfl, ?_⟩
    · simp [mid, hs]
    · simp [hcount]
  · rw [set_hsic_state_off env mid hs, hlen]
    refine ⟨rfl, fun h => absurd h (by decide), fun _ => rfl, fun h => ?_, rfl, rfl, ?_⟩
    · rcases h with h | h
      · cases h
      · simp [h]
    · simp [i2c_count_append, hcount, i2c_count, List.filter, Event.is_i2c]

theorem usb3813_enable_hub_disable_witness :
    info_enabled.hub_enabled = true ∧
    usb3813_enable_hub env_ok (some info_enabled) false (usb_ext_path.other 0) =
      (0, some { info_enabled with
          hub_enabled := false
          usb3813_attach_work := none
          trace := info_enabled.trace ++
            [Event.cancel_delayed_work, Event.gpio_set_value 0,
             Event.clk_disable_unprepare] }) :=
  ⟨rfl,
   (usb3813_enable_hub_disable env_ok info_enabled (usb_ext_path.other 0) rfl).2.1 rfl⟩


/-! ## Debug hooks: theorems -/

/-- C13. While the hub is enabled `usb3813_dbg_enable_write` returns `-EBUSY`
for every value and gives back the state as it was, trace included: no flag
changes and no kernel call (clock, reset line, bus) is made. -/
theorem usb3813_dbg_enable_write_busy (env : Env) (info : usb3813_info) (val : Nat)
    (hen : info.hub_enabled = true) :
    usb3813_dbg_enable_write env info val = (- EBUSY, info) := by
  simp [usb3813_dbg_enable_write, hen]

theorem usb3813_dbg_enable_write_busy_witness :
    info_enabled.hub_enabled = true ∧
    usb3813_dbg_enable_write env_ok info_enabled 1 = (- EBUSY, info_enabled) :=
  ⟨rfl, usb3813_dbg_enable_write_busy env_ok info_enabled 1 rfl⟩

/-- C15. With debug mode off `get_reg` and `set_reg` both return `-ENODEV`,
store nothing and give back the state as it was (no bus exchange); with debug
mode on `set_reg(val)` is `usb3813_write_cfg_reg` at `debug_address` with the
low 8 bits of `val`, result and effects alike. -/
theorem reg_access_gated_by_debug (env : Env) (info : usb3813_info) (val : Nat) :
    (info.debug_enabled = false →
      get_reg env info = (- ENODEV, none, info) ∧
      set_reg env info val = (- ENODEV, info)) ∧
    (info.debug_enabled = true →
      set_reg env info val =
        usb3813_write_cfg_reg env info info.debug_address (val % 256)) := by
  constructor
  · intro h
    simp [get_reg, set_reg, h]
  · intro h
    simp [set_reg, h]

theorem reg_access_gated_by_debug_witness :
    (usb3813_info.init 0x2d).debug_enabled = false ∧
    get_reg env_ok (usb3813_info.init 0x2d) = (- ENODEV, none, usb3813_info.init 0x2d) ∧
    set_reg env_ok (usb3813_info.init 0x2d) 0x1ff = (- ENODEV, usb3813_info.init 0x2d) ∧
    info_debug.debug_enabled = true ∧
    set_reg env_ok info_debug 0x1ff =
      usb3813_write_cfg_reg env_ok info_debug info_debug.debug_address (0x1ff % 256) :=
  ⟨rfl,
   ((reg_access_gated_by_debug env_ok (usb3813_info.init 0x2d) 0x1ff).1 rfl).1,
   ((reg_access_gated_by_debug env_ok (usb3813_info.init 0x2d) 0x1ff).1 rfl).2,
   rfl,
   (reg_access_gated_by_debug env_ok info_debug 0x1ff).2 rfl⟩

/-- C17. With debug mode on and a transport that fails the attach command with
`-5`, `usb3813_write_command(USB_ATTACH)` returns `-5` while
`usb3813_dbg_attach_write(1)` returns 0. -/
theorem usb3813_dbg_attach_write_drops_bus_error :
    info_debug.debug_enabled = true ∧
    (usb3813_write_command env_bus_error info_debug USB_ATTACH).1 = -5 ∧
    (usb3813_dbg_attach_write env_bus_error info_debug 1).1 = 0 := by
  decide



/-- C16 fails as stated: with debug mode off `usb3813_dbg_attach_write`
rejects with `-EINVAL`, while `get_reg` and `set_reg` reject with `-ENODEV`;
the two rejections are not the same. -/
theorem usb3813_dbg_attach_write_rejection_differs :
    (usb3813_info.init 0x2d).debug_enabled = false ∧
    (usb3813_dbg_attach_write env_ok (usb3813_info.init 0x2d) 1).1 = - EINVAL ∧
    (get_reg env_ok (usb3813_info.init 0x2d)).1 = - ENODEV ∧
    (set_reg env_ok (usb3813_info.init 0x2d) 1).1 = - ENODEV ∧
    (usb3813_dbg_attach_write env_ok (usb3813_info.init 0x2d) 1).1 ≠
      (get_reg env_ok (usb3813_info.init 0x2d)).1 := by
  decide

/-- C16, amended. With debug mode off `usb3813_dbg_attach_write` returns
`-EINVAL` and gives back the state as it was (no bus exchange, no reset-line
write).  With debug mode on and `val ≠ 0` it makes exactly the calls of one
`usb3813_write_command(USB_ATTACH)`: one locked exchange `[AA 55 00]` and no
reset-line write.  With debug mode on and `val = 0` it writes the reset line 0,
waits 10 ms, writes the reset line 1, in that order, with no bus exchange. -/
theorem usb3813_dbg_attach_write_semantics (env : Env) (info : usb3813_info) (val : Nat) :
    (info.debug_enabled = false →
      usb3813_dbg_attach_write env info val = (- EINVAL, info)) ∧
    (info.debug_enabled = true → val ≠ 0 →
      (usb3813_dbg_attach_write env info val).2 =
        (usb3813_write_command env info USB_ATTACH).2 ∧
      (usb3813_dbg_attach_write env info val).2 =
        { info with trace := info.trace ++
            [Event.mutex_lock,
             Event.i2c_transfer
               [{ addr := info.addr, flags := 0, len := 3, buf := [0xAA, 0x55, 0x00] }] 1
               (env.i2c_transfer (info.trace.length + 1)).ret,
             Event.mutex_unlock] }) ∧
    (info.debug_enabled = true → val = 0 →
      usb3813_dbg_attach_write env info val =
        (0, { info with trace := info.trace ++
            [Event.gpio_set_value 0, Event.mdelay 10, Event.gpio_set_value 1] })) := by
  refine ⟨?_, ?_, ?_⟩
  · intro h
    simp [usb3813_dbg_attach_write, h]
  · intro h hv
    have e : (usb3813_dbg_attach_write env info val).2 =
        (usb3813_write_command env info USB_ATTACH).2 := by
      simp [usb3813_dbg_attach_write, h, hv]
    refine ⟨e, ?_⟩
    rw [e, usb3813_write_command_eq]
    rfl
  · intro h hv
    simp [usb3813_dbg_attach_write, h, hv, emit]

theorem usb3813_dbg_attach_write_semantics_witness :
    (usb3813_info.init 0x2d).debug_enabled = false ∧
    usb3813_dbg_attach_write env_ok (usb3813_info.init 0x2d) 1 =
      (- EINVAL, usb3813_info.init 0x2d) ∧
    info_debug.debug_enabled = true ∧ (0 : Nat) = 0 ∧
    usb3813_dbg_attach_write env_ok info_debug 0 =
      (0, { info_debug with trace := info_debug.trace ++
          [Event.gpio_set_value 0, Event.mdelay 10, Event.gpio_set_value 1] }) :=
  ⟨rfl,
   (usb3813_dbg_attach_write_semantics env_ok (usb3813_info.init 0x2d) 1).1 rfl,
   rfl, rfl,
   (usb3813_dbg_attach_write_semantics env_ok info_debug 0).2.2 rfl rfl⟩

/-- C14. From the probed state (hub off, debug off) with a clock that cannot
be enabled, `usb3813_dbg_enable_write(1)` returns `-EFAULT` and leaves
`debug_enabled` true: the assignment of line 347, made before the clock is
enabled, is not undone, although the function sets the flag again at line 354
once clock and reset line are done.  The state is not the one before the
call. -/
theorem usb3813_dbg_enable_write_clock_failure_sets_flag :
    (usb3813_info.init 0x2d).hub_enabled = false ∧
    (usb3813_info.init 0x2d).debug_enabled = false ∧
    env_clk_fail.clk_prepare_enable (usb3813_info.init 0x2d).trace.length ≠ 0 ∧
    (usb3813_dbg_enable_write env_clk_fail (usb3813_info.init 0x2d) 1).1 = - EFAULT ∧
    (usb3813_dbg_enable_write env_clk_fail (usb3813_info.init 0x2d) 1).2.debug_enabled = true ∧
    (usb3813_dbg_enable_write env_clk_fail (usb3813_info.init 0x2d) 1).2 ≠
      usb3813_info.init 0x2d := by
  decide

/-! ## Attach work: theorems -/

theorem usb3813_attach_w_eq (env : Env) (info : usb3813_info) (boost_val : Nat)
    (hen : info.hub_enabled = true) :
    usb3813_attach_w env info boost_val =
      (usb3813_write_command env
        (usb3813_write_cfg_reg env (emit info Event.slimport_reset_standby)
          HS_P2_BOOST (boost_val % 256)).2 USB_ATTACH).2 := by
  simp [usb3813_attach_w, hen]

/-- C12. Run with the hub enabled, `usb3813_attach_w` is the companion reset,
then `usb3813_write_cfg_reg(HS_P2_BOOST, boost_val mod 256)`, then
`usb3813_write_command(USB_ATTACH)`, each once, with both results dropped and
nothing but the trace changed.  When the register frame is answered 1 the
trace grows by the reset and the exchanges `[00 00 05 00 01 68 CA boost]`,
`[99 37 00]`, `[AA 55 00]`; when it is not, the commit is skipped and the
attach command is sent all the same. -/
theorem usb3813_attach_w_sequence (env : Env) (info : usb3813_info) (boost_val : Nat)
    (hen : info.hub_enabled = true) :
    usb3813_attach_w env info boost_val =
      (usb3813_write_command env
        (usb3813_write_cfg_reg env (emit info Event.slimport_reset_standby)
          HS_P2_BOOST (boost_val % 256)).2 USB_ATTACH).2 ∧
    ((env.i2c_transfer (info.trace.length + 2)).ret = 1 →
      usb3813_attach_w env info boost_val =
        { info with trace := info.trace ++
            [Event.slimport_reset_standby,
             Event.mutex_lock,
             Event.i2c_transfer
               [{ addr := info.addr, flags := 0, len := 8,
                  buf := [0x00, 0x00, 0x05, 0x00, 0x01, 0x68, 0xCA, boost_val % 256] }] 1 1,
             Event.mutex_unlock,
             Event.mutex_lock,
             Event.i2c_transfer
               [{ addr := info.addr, flags := 0, len := 3, buf := [0x99, 0x37, 0x00] }] 1
               (env.i2c_transfer (info.trace.length + 5)).ret,
             Event.mutex_unlock,
             Event.mutex_lock,
             Event.i2c_transfer
               [{ addr := info.addr, flags := 0, len := 3, buf := [0xAA, 0x55, 0x00] }] 1
               (env.i2c_transfer (info.trace.length + 8)).ret,
             Event.mutex_unlock] }) ∧
    ((env.i2c_transfer (info.trace.length + 2)).ret ≠ 1 →
      usb3813_attach_w env info boost_val =
        { info with trace := info.trace ++
            [Event.slimport_reset_standby,
             Event.mutex_lock,
             Event.i2c_transfer
               [{ addr := info.addr, flags := 0, len := 8,
                  buf := [0x00, 0x00, 0x05, 0x00, 0x01, 0x68, 0xCA, boost_val % 256] }] 1
               (env.i2c_transfer (info.trace.length + 2)).ret,
             Event.mutex_unlock,
             Event.mutex_lock,
             Event.i2c_transfer
               [{ addr := info.addr, flags := 0, len := 3, buf := [0xAA, 0x55, 0x00] }] 1
               (env.i2c_transfer (info.trace.length + 5)).ret,
             Event.mutex_unlock] }) := by
  have p1 : (emit info Event.slimport_reset_standby).trace.length + 1 =
      info.trace.length + 2 := by simp [emit]
  refine ⟨usb3813_attach_w_eq env info boost_val hen, ?_, ?_⟩
  · intro h1
    rw [usb3813_attach_w_eq env info boost_val hen, usb3813_write_cfg_reg_eq, p1, h1,
      if_neg (by decide), if_neg (by simp), usb3813_write_command_eq,
      usb3813_write_command_eq]
    simp [emit, HS_P2_BOOST, CFG_ACCESS, USB_ATTACH, Nat.add_assoc]
    decide
  · intro h1
    rw [usb3813_attach_w_eq env info boost_val hen, usb3813_write_cfg_reg_eq, p1]
    split_ifs with a
    · rw [usb3813_write_command_eq]
      simp [emit, HS_P2_BOOST, USB_ATTACH, Nat.add_assoc]
      decide
    · rw [usb3813_write_command_eq]
      simp [emit, HS_P2_BOOST, USB_ATTACH, Nat.add_assoc]
      decide

theorem usb3813_attach_w_sequence_witness :
    (step env_attach_ok (usb3813_info.init 0x2d)
      (Call.enable_hub true usb_ext_path.USB_EXT_PATH_BRIDGE)).2.hub_enabled = true ∧
    usb3813_attach_w env_attach_ok
      (step env_attach_ok (usb3813_info.init 0x2d)
        (Call.enable_hub true usb_ext_path.USB_EXT_PATH_BRIDGE)).2 3 =
      { usb3813_info.init 0x2d with
          hub_enabled := true
          usb3813_attach_work := some 1000
          hsic_enabled := true
          trace :=
            [Event.cancel_delayed_work, Event.clk_prepare_enable 0, Event.gpio_set_value 1,
             Event.schedule_delayed_work 1000, Event.regulator_enable 0,
             Event.slimport_reset_standby,
             Event.mutex_lock,
             Event.i2c_transfer
               [{ addr := 0x2d, flags := 0, len := 8,
                  buf := [0x00, 0x00, 0x05, 0x00, 0x01, 0x68, 0xCA, 3] }] 1 1,
             Event.mutex_unlock,
             Event.mutex_lock,
             Event.i2c_transfer
               [{ addr := 0x2d, flags := 0, len := 3, buf := [0x99, 0x37, 0x00] }] 1 1,
             Event.mutex_unlock,
             Event.mutex_lock,
             Event.i2c_transfer
               [{ addr := 0x2d, flags := 0, len := 3, buf := [0xAA, 0x55, 0x00] }] 1 1,
             Event.mutex_unlock] } :=
  ⟨rfl,
   (usb3813_attach_w_sequence env_attach_ok
      (step env_attach_ok (usb3813_info.init 0x2d)
        (Call.enable_hub true usb_ext_path.USB_EXT_PATH_BRIDGE)).2 3 rfl).2.1 rfl⟩



/-! ## Lock discipline -/

theorem mutex_run_xfer_blocks (bs : List (List i2c_msg × Nat × Int)) :
    mutex_run false (xfer_blocks bs) = some false := by
  induction bs with
  | nil => rfl
  | cons b bs ih =>
    obtain ⟨msgs, num, ret⟩ := b
    simpa [xfer_blocks, mutex_run] using ih

theorem usb3813_write_command_blocks (env : Env) (info : usb3813_info) (command : Nat) :
    ∃ bs : List (List i2c_msg × Nat × Int), bs.length = 1 ∧
      (usb3813_write_command env info command).2 =
        { info with trace := info.trace ++ xfer_blocks bs } := by
  rw [usb3813_write_command_eq]
  exact ⟨[(_, _, _)], rfl, rfl⟩

theorem usb3813_write_cfg_reg_blocks (env : Env) (info : usb3813_info) (reg val : Nat) :
    ∃ bs : List (List i2c_msg × Nat × Int), 1 ≤ bs.length ∧ bs.length ≤ 2 ∧
      (usb3813_write_cfg_reg env info reg val).2 =
        { info with trace := info.trace ++ xfer_blocks bs } := by
  rw [usb3813_write_cfg_reg_eq]
  by_cases h1 : (env.i2c_transfer (info.trace.length + 1)).ret < 0
  · rw [if_pos h1]
    exact ⟨[(_, _, _)], by simp, by simp, rfl⟩
  · rw [if_neg h1]
    by_cases h2 : (env.i2c_transfer (info.trace.length + 1)).ret ≠ 1
    · rw [if_pos h2]
      exact ⟨[(_, _, _)], by simp, by simp, rfl⟩
    · rw [if_neg h2, usb3813_write_command_eq]
      simp only [List.append_assoc, List.cons_append, List.nil_append]
      exact ⟨[(_, _, _), (_, _, _)], by simp, by simp, rfl⟩

theorem usb3813_read_cfg_reg_blocks (env : Env) (info : usb3813_info) (reg : Nat) :
    ∃ bs : List (List i2c_msg × Nat × Int), 1 ≤ bs.length ∧ bs.length ≤ 3 ∧
      (usb3813_read_cfg_reg env info reg).2 =
        { info with trace := info.trace ++ xfer_blocks bs } := by
  rw [usb3813_read_cfg_reg_eq env info reg _ _ _ rfl rfl rfl]
  simp only [List.append_assoc, List.cons_append, List.nil_append]
  by_cases h1 : (env.i2c_transfer (info.trace.length + 1)).ret < 0
  · rw [if_pos h1]
    exact ⟨[(_, _, _)], by simp, by simp, rfl⟩
  · rw [if_neg h1]
    by_cases h2 : (env.i2c_transfer (info.trace.length + 1)).ret ≠ 1
    · rw [if_pos h2]
      exact ⟨[(_, _, _)], by simp, by simp, rfl⟩
    · rw [if_neg h2]
      by_cases h3 : (if (env.i2c_transfer (info.trace.length + 4)).ret < 0 then
            (env.i2c_transfer (info.trace.length + 4)).ret
          else if (env.i2c_transfer (info.trace.length + 4)).ret ≠ 1 then - EIO else 0) < 0
      · rw [if_pos h3]
        exact ⟨[(_, _, _), (_, _, _)], by simp, by simp, rfl⟩
      · rw [if_neg h3]
        exact ⟨[(_, _, _), (_, _, _), (_, _, _)], by simp, by simp, rfl⟩

/-- C18. Each of `usb3813_write_command`, `usb3813_write_cfg_reg` and
`usb3813_read_cfg_reg` changes nothing but the trace, and appends to it a
concatenation of blocks `mutex_lock, one i2c_transfer, mutex_unlock`: one
block for a command, one or two for a register write, one to three for a
register read, on every return path.  Such a trace is legal for the mutex
automaton started free and leaves the mutex free: every transfer is made with
the mutex held, it is never taken while held, and it is released after each
exchange. -/
theorem i2c_mutex_held_per_exchange (env : Env) (info : usb3813_info)
    (command reg val : Nat) :
    (∃ bs : List (List i2c_msg × Nat × Int), bs.length = 1 ∧
      (usb3813_write_command env info command).2 =
        { info with trace := info.trace ++ xfer_blocks bs } ∧
      mutex_run false (xfer_blocks bs) = some false) ∧
    (∃ bs : List (List i2c_msg × Nat × Int), 1 ≤ bs.length ∧ bs.length ≤ 2 ∧
      (usb3813_write_cfg_reg env info reg val).2 =
        { info with trace := info.trace ++ xfer_blocks bs } ∧
      mutex_run false (xfer_blocks bs) = some false) ∧
    (∃ bs : List (List i2c_msg × Nat × Int), 1 ≤ bs.length ∧ bs.length ≤ 3 ∧
      (usb3813_read_cfg_reg env info reg).2 =
        { info with trace := info.trace ++ xfer_blocks bs } ∧
      mutex_run false (xfer_blocks bs) = some false) := by
  refine ⟨?_, ?_, ?_⟩
  · obtain ⟨bs, h1, h2⟩ := usb3813_write_command_blocks env info command
    exact ⟨bs, h1, h2, mutex_run_xfer_blocks bs⟩
  · obtain ⟨bs, h1, h2, h3⟩ := usb3813_write_cfg_reg_blocks env info reg val
    exact ⟨bs, h1, h2, h3, mutex_run_xfer_blocks bs⟩
  · obtain ⟨bs, h1, h2, h3⟩ := usb3813_read_cfg_reg_blocks env info reg
    exact ⟨bs, h1, h2, h3, mutex_run_xfer_blocks bs⟩



/-! ## Sequences of calls: lemmas -/

theorem step_enable_hub_eq (env : Env) (info : usb3813_info) (enable : Bool)
    (path : usb_ext_path) :
    (step env info (Call.enable_hub enable path)).2 =
      if enable = info.hub_enabled then info
      else if enable = true then
        if env.clk_prepare_enable (info.trace.length + 1) ≠ 0 then
          { info with
              hub_enabled := true
              usb3813_attach_work := none
              trace := info.trace ++
                [Event.cancel_delayed_work,
                 Event.clk_prepare_enable (env.clk_prepare_enable (info.trace.length + 1))] }
        else if path = usb_ext_path.USB_EXT_PATH_BRIDGE then
          (set_hsic_state env
            { info with
                hub_enabled := true
                usb3813_attach_work := some 1000
                trace := info.trace ++
                  [Event.cancel_delayed_work, Event.clk_prepare_enable 0,
                   Event.gpio_set_value 1, Event.schedule_delayed_work 1000] } true).2
        else
          { info with
              hub_enabled := true
              usb3813_attach_work := some 1000
              trace := info.trace ++
                [Event.cancel_delayed_work, Event.clk_prepare_enable 0,
                 Event.gpio_set_value 1, Event.schedule_delayed_work 1000] }
      else
        (set_hsic_state env
          { info with
              hub_enabled := false
              usb3813_attach_work := none
              trace := info.trace ++
                [Event.cancel_delayed_work, Event.gpio_set_value 0,
                 Event.clk_disable_unprepare] } false).2 := by
  by_cases h : enable = info.hub_enabled
  · rw [if_pos h]
    simp [step, usb3813_enable_hub, h]
  · rw [if_neg h]
    cases enable
    · have hh : info.hub_enabled = true := by
        cases hb : info.hub_enabled
        · exact absurd hb.symm h
        · rfl
      simp [step, usb3813_enable_hub, cancel_delayed_work, emit, hh]
    · have hh : info.hub_enabled = false := by
        cases hb : info.hub_enabled
        · rfl
        · exact absurd hb.symm h
      by_cases hc : env.clk_prepare_enable (info.trace.length + 1) = 0
      · simp only [step, usb3813_enable_hub_on_eq env info path hh hc]
        split_ifs <;> simp_all
      · simp only [step, usb3813_enable_hub_clk_fail_eq env info path hh hc]
        simp [hc]

theorem set_hsic_state_shape (env : Env) (info : usb3813_info) (enable : Bool) :
    (set_hsic_state env info enable).2 = info ∨
    (info.hsic_enabled = false ∧
      (set_hsic_state env info enable).2 =
        { info with
            hsic_enabled := decide (env.regulator_enable info.trace.length = 0)
            trace := info.trace ++
              [Event.regulator_enable (env.regulator_enable info.trace.length)] }) ∨
    (info.hsic_enabled = true ∧
      (set_hsic_state env info enable).2 =
        { info with
            hsic_enabled := !decide (env.regulator_disable info.trace.length = 0)
            trace := info.trace ++
              [Event.regulator_disable (env.regulator_disable info.trace.length)] }) := by
  cases enable <;> cases hs : info.hsic_enabled
  · left; rw [set_hsic_state_same env info false hs]
  · right; right; exact ⟨rfl, by rw [set_hsic_state_off env info hs]⟩
  · right; left; exact ⟨rfl, by rw [set_hsic_state_on env info hs]⟩
  · left; rw [set_hsic_state_same env info true hs]



/-! ## Clock balance -/

theorem set_hsic_state_clk (env : Env) (info : usb3813_info) (enable : Bool) :
    clk_enable_count (set_hsic_state env info enable).2.trace = clk_enable_count info.trace ∧
    clk_disable_count (set_hsic_state env info enable).2.trace =
      clk_disable_count info.trace ∧
    (set_hsic_state env info enable).2.hub_enabled = info.hub_enabled ∧
    (set_hsic_state env info enable).2.debug_enabled = info.debug_enabled := by
  rcases set_hsic_state_shape env info enable with h | ⟨-, h⟩ | ⟨-, h⟩ <;> rw [h] <;>
    simp [clk_enable_count, clk_disable_count]

theorem step_clk_balance (env : Env) (info : usb3813_info) (c : Call)
    (hclk : ∀ n, env.clk_prepare_enable n = 0)
    (hguard : c = Call.dbg_enable_write 0 → info.debug_enabled = true)
    (h : clk_disable_count info.trace + info.hub_enabled.toNat + info.debug_enabled.toNat ≤
      clk_enable_count info.trace) :
    clk_disable_count (step env info c).2.trace + (step env info c).2.hub_enabled.toNat +
        (step env info c).2.debug_enabled.toNat ≤
      clk_enable_count (step env info c).2.trace := by
  cases c with
  | enable_hub enable path =>
    rw [step_enable_hub_eq]
    by_cases h1 : enable = info.hub_enabled
    · rw [if_pos h1]; exact h
    · rw [if_neg h1]
      cases enable
      · have hh : info.hub_enabled = true := by
          cases hb : info.hub_enabled
          · exact absurd hb.symm h1
          · rfl
        simp only [Bool.false_eq_true, if_false]
        obtain ⟨e1, e2, e3, e4⟩ := set_hsic_state_clk env
          { info with
              hub_enabled := false
              usb3813_attach_work := none
              trace := info.trace ++
                [Event.cancel_delayed_work, Event.gpio_set_value 0,
                 Event.clk_disable_unprepare] } false
        rw [e1, e2, e3, e4]
        simp [clk_enable_count, clk_disable_count, hh] at h ⊢
        omega
      · have hh : info.hub_enabled = false := by
          cases hb : info.hub_enabled
          · rfl
          · exact absurd hb.symm h1
        simp only [if_true, hclk, ne_eq, not_true_eq_false, if_false]
        split_ifs
        · obtain ⟨e1, e2, e3, e4⟩ := set_hsic_state_clk env
            { info with
                hub_enabled := true
                usb3813_attach_work := some 1000
                trace := info.trace ++
                  [Event.cancel_delayed_work, Event.clk_prepare_enable 0,
                   Event.gpio_set_value 1, Event.schedule_delayed_work 1000] } true
          rw [e1, e2, e3, e4]
          simp [clk_enable_count, clk_disable_count, hh] at h ⊢
          omega
        · simp [clk_enable_count, clk_disable_count, hh] at h ⊢
          omega
  | dbg_enable_write val =>
    cases hh : info.hub_enabled
    · by_cases hv : val = 0
      · subst hv
        have hd : info.debug_enabled = true := hguard rfl
        simp [step, usb3813_dbg_enable_write, hh, emit, clk_enable_count, clk_disable_count,
          hd] at h ⊢
        omega
      · cases hd : info.debug_enabled <;>
          simp [step, usb3813_dbg_enable_write, hh, hv, hclk, emit, clk_enable_count,
            clk_disable_count, hd] at h ⊢ <;> omega
    · simpa [step, usb3813_dbg_enable_write, hh] using h



theorem exits_debug_in_debug_head (env : Env) (info : usb3813_info) (c : Call)
    (cs : List Call) (h : exits_debug_in_debug env info (c :: cs) = true) :
    (c = Call.dbg_enable_write 0 → info.debug_enabled = true) ∧
    exits_debug_in_debug env (step env info c).2 cs = true := by
  simp only [exits_debug_in_debug, Bool.and_eq_true] at h
  refine ⟨?_, h.2⟩
  intro hc
  subst hc
  exact h.1

theorem exits_debug_in_debug_take (env : Env) (calls : List Call) :
    ∀ (info : usb3813_info) (k : Nat), exits_debug_in_debug env info calls = true →
      exits_debug_in_debug env info (calls.take k) = true := by
  induction calls with
  | nil => intro info k h; simpa using h
  | cons c cs ih =>
    intro info k h
    cases k with
    | zero => rfl
    | succ k =>
      simp only [List.take_succ_cons, exits_debug_in_debug, Bool.and_eq_true] at h ⊢
      exact ⟨h.1, ih _ k h.2⟩

theorem run_clk_balance (env : Env) (hclk : ∀ n, env.clk_prepare_enable n = 0)
    (calls : List Call) :
    ∀ info : usb3813_info, exits_debug_in_debug env info calls = true →
      clk_disable_count info.trace + info.hub_enabled.toNat + info.debug_enabled.toNat ≤
        clk_enable_count info.trace →
      clk_disable_count (run env info calls).trace + (run env info calls).hub_enabled.toNat +
          (run env info calls).debug_enabled.toNat ≤
        clk_enable_count (run env info calls).trace := by
  induction calls with
  | nil => intro info _ h; exact h
  | cons c cs ih =>
    intro info hg h
    obtain ⟨hc, hcs⟩ := exits_debug_in_debug_head env info c cs hg
    exact ih _ hcs (step_clk_balance env info c hclk hc h)

/-- C19 fails as stated.  With a clock that cannot be enabled, enabling the
hub (which returns `-EFAULT` and leaves `hub_enabled` true) and then disabling
it calls `clk_disable_unprepare` once after no successful
`clk_prepare_enable`; and from the probed state `usb3813_dbg_enable_write(0)`
alone does the same. -/
theorem clk_disable_without_enable :
    clk_enable_count (run env_clk_fail (usb3813_info.init 0x2d)
      [Call.enable_hub true usb_ext_path.USB_EXT_PATH_BRIDGE,
       Call.enable_hub false usb_ext_path.USB_EXT_PATH_BRIDGE]).trace = 0 ∧
    clk_disable_count (run env_clk_fail (usb3813_info.init 0x2d)
      [Call.enable_hub true usb_ext_path.USB_EXT_PATH_BRIDGE,
       Call.enable_hub false usb_ext_path.USB_EXT_PATH_BRIDGE]).trace = 1 ∧
    clk_enable_count (run env_ok (usb3813_info.init 0x2d)
      [Call.dbg_enable_write 0]).trace = 0 ∧
    clk_disable_count (run env_ok (usb3813_info.init 0x2d)
      [Call.dbg_enable_write 0]).trace = 1 ∧
    ¬ (clk_disable_count (run env_clk_fail (usb3813_info.init 0x2d)
        [Call.enable_hub true usb_ext_path.USB_EXT_PATH_BRIDGE,
         Call.enable_hub false usb_ext_path.USB_EXT_PATH_BRIDGE]).trace ≤
      clk_enable_count (run env_clk_fail (usb3813_info.init 0x2d)
        [Call.enable_hub true usb_ext_path.USB_EXT_PATH_BRIDGE,
         Call.enable_hub false usb_ext_path.USB_EXT_PATH_BRIDGE]).trace) := by
  decide

/-- C19, amended. Take any sequence of `usb3813_enable_hub` and
`usb3813_dbg_enable_write` calls from the probed state in which every clock
enable succeeds and `usb3813_dbg_enable_write(0)` is only made while
`debug_enabled` is true.  After every number `k` of its calls the
`clk_disable_unprepare` calls made so far do not exceed the successful
`clk_prepare_enable` calls. -/
theorem clk_disable_le_enable (env : Env) (addr : Nat) (calls : List Call) (k : Nat)
    (hclk : ∀ n, env.clk_prepare_enable n = 0)
    (hguard : exits_debug_in_debug env (usb3813_info.init addr) calls = true) :
    clk_disable_count (run env (usb3813_info.init addr) (calls.take k)).trace ≤
      clk_enable_count (run env (usb3813_info.init addr) (calls.take k)).trace := by
  have h := run_clk_balance env hclk (calls.take k) (usb3813_info.init addr)
    (exits_debug_in_debug_take env calls _ k hguard)
    (by simp [usb3813_info.init, clk_disable_count, clk_enable_count])
  omega

theorem clk_disable_le_enable_witness :
    (∀ n, env_ok.clk_prepare_enable n = 0) ∧
    exits_debug_in_debug env_ok (usb3813_info.init 0x2d)
      [Call.dbg_enable_write 1, Call.dbg_enable_write 0,
       Call.enable_hub true usb_ext_path.USB_EXT_PATH_BRIDGE,
       Call.enable_hub false usb_ext_path.USB_EXT_PATH_BRIDGE] = true ∧
    clk_disable_count (run env_ok (usb3813_info.init 0x2d)
      ([Call.dbg_enable_write 1, Call.dbg_enable_write 0,
        Call.enable_hub true usb_ext_path.USB_EXT_PATH_BRIDGE,
        Call.enable_hub false usb_ext_path.USB_EXT_PATH_BRIDGE].take 4)).trace ≤
    clk_enable_count (run env_ok (usb3813_info.init 0x2d)
      ([Call.dbg_enable_write 1, Call.dbg_enable_write 0,
        Call.enable_hub true usb_ext_path.USB_EXT_PATH_BRIDGE,
        Call.enable_hub false usb_ext_path.USB_EXT_PATH_BRIDGE].take 4)).trace :=
  ⟨fun _ => rfl, by decide,
   clk_disable_le_enable env_ok 0x2d
     [Call.dbg_enable_write 1, Call.dbg_enable_write 0,
      Call.enable_hub true usb_ext_path.USB_EXT_PATH_BRIDGE,
      Call.enable_hub false usb_ext_path.USB_EXT_PATH_BRIDGE] 4 (fun _ => rfl) (by decide)⟩



/-! ## Passive operations -/

theorem passive_ext_refl (a : usb3813_info) : passive_ext a a :=
  ⟨rfl, rfl, rfl, [], by simp, rfl⟩

theorem passive_ext_trans (a b c : usb3813_info) (h1 : passive_ext a b)
    (h2 : passive_ext b c) : passive_ext a c := by
  obtain ⟨a1, a2, a3, u, hu, pu⟩ := h1
  obtain ⟨b1, b2, b3, v, hv, pv⟩ := h2
  refine ⟨b1.trans a1, b2.trans a2, b3.trans a3, u ++ v, ?_, ?_⟩
  · rw [hv, hu, List.append_assoc]
  · simp only [List.all_append, pu, pv, Bool.and_self]

theorem xfer_blocks_passive (bs : List (List i2c_msg × Nat × Int)) :
    (xfer_blocks bs).all Event.is_passive = true := by
  induction bs with
  | nil => rfl
  | cons b bs ih =>
    obtain ⟨msgs, num, ret⟩ := b
    simpa [xfer_blocks, Event.is_passive] using ih

theorem passive_ext_emit (a : usb3813_info) (e : Event) (h : e.is_passive = true) :
    passive_ext a (emit a e) :=
  ⟨rfl, rfl, rfl, [e], rfl, by simp [h]⟩

theorem passive_ext_blocks (a b : usb3813_info) (bs : List (List i2c_msg × Nat × Int))
    (h : b = { a with trace := a.trace ++ xfer_blocks bs }) : passive_ext a b := by
  subst h
  exact ⟨rfl, rfl, rfl, xfer_blocks bs, rfl, xfer_blocks_passive bs⟩

theorem usb3813_write_command_passive (env : Env) (info : usb3813_info) (command : Nat) :
    passive_ext info (usb3813_write_command env info command).2 := by
  obtain ⟨bs, -, h⟩ := usb3813_write_command_blocks env info command
  exact passive_ext_blocks _ _ bs h

theorem usb3813_write_cfg_reg_passive (env : Env) (info : usb3813_info) (reg val : Nat) :
    passive_ext info (usb3813_write_cfg_reg env info reg val).2 := by
  obtain ⟨bs, -, -, h⟩ := usb3813_write_cfg_reg_blocks env info reg val
  exact passive_ext_blocks _ _ bs h

theorem usb3813_read_cfg_reg_passive (env : Env) (info : usb3813_info) (reg : Nat) :
    passive_ext info (usb3813_read_cfg_reg env info reg).2 := by
  obtain ⟨bs, -, -, h⟩ := usb3813_read_cfg_reg_blocks env info reg
  exact passive_ext_blocks _ _ bs h

theorem usb3813_attach_w_passive (env : Env) (info : usb3813_info) (boost_val : Nat) :
    passive_ext info (usb3813_attach_w env info boost_val) := by
  cases hh : info.hub_enabled
  · have e : usb3813_attach_w env info boost_val = info := by
      simp [usb3813_attach_w, hh]
    rw [e]
    exact passive_ext_refl info
  · rw [usb3813_attach_w_eq env info boost_val hh]
    exact passive_ext_trans _ _ _ (passive_ext_emit info Event.slimport_reset_standby rfl)
      (passive_ext_trans _ _ _ (usb3813_write_cfg_reg_passive env _ _ _)
        (usb3813_write_command_passive env _ _))

theorem get_reg_passive (env : Env) (info : usb3813_info) :
    passive_ext info (get_reg env info).2.2 := by
  cases hd : info.debug_enabled
  · have e : (get_reg env info).2.2 = info := by simp [get_reg, hd]
    rw [e]
    exact passive_ext_refl info
  · have e : (get_reg env info).2.2 =
        (usb3813_read_cfg_reg env info info.debug_address).2 := by
      simp [get_reg, hd]
    rw [e]
    exact usb3813_read_cfg_reg_passive env info _

theorem set_reg_passive (env : Env) (info : usb3813_info) (val : Nat) :
    passive_ext info (set_reg env info val).2 := by
  cases hd : info.debug_enabled
  · have e : (set_reg env info val).2 = info := by simp [set_reg, hd]
    rw [e]
    exact passive_ext_refl info
  · have e : (set_reg env info val).2 =
        (usb3813_write_cfg_reg env info info.debug_address (val % 256)).2 := by
      simp [set_reg, hd]
    rw [e]
    exact usb3813_write_cfg_reg_passive env info _ _

theorem usb3813_dbg_attach_write_passive (env : Env) (info : usb3813_info) (val : Nat) :
    passive_ext info (usb3813_dbg_attach_write env info val).2 := by
  cases hd : info.debug_enabled
  · have e : (usb3813_dbg_attach_write env info val).2 = info := by
      simp [usb3813_dbg_attach_write, hd]
    rw [e]
    exact passive_ext_refl info
  · by_cases hv : val = 0
    · have e : (usb3813_dbg_attach_write env info val).2 =
          emit (emit (emit info (Event.gpio_set_value 0)) (Event.mdelay 10))
            (Event.gpio_set_value 1) := by
        simp [usb3813_dbg_attach_write, hd, hv]
      rw [e]
      exact passive_ext_trans _ _ _ (passive_ext_emit info (Event.gpio_set_value 0) rfl)
        (passive_ext_trans _ _ _ (passive_ext_emit _ (Event.mdelay 10) rfl)
          (passive_ext_emit _ (Event.gpio_set_value 1) rfl))
    · have e : (usb3813_dbg_attach_write env info val).2 =
          (usb3813_write_command env info USB_ATTACH).2 := by
        simp [usb3813_dbg_attach_write, hd, hv]
      rw [e]
      exact usb3813_write_command_passive env info _

theorem usb3813_dbg_enable_write_passive (env : Env) (info : usb3813_info) (val : Nat) :
    passive_ext info (usb3813_dbg_enable_write env info val).2 := by
  unfold usb3813_dbg_enable_write
  simp only [emit]
  split_ifs
  · exact passive_ext_refl info
  · exact ⟨rfl, rfl, rfl,
      [Event.clk_prepare_enable (env.clk_prepare_enable info.trace.length)], rfl, rfl⟩
  · exact ⟨rfl, rfl, rfl,
      [Event.clk_prepare_enable (env.clk_prepare_enable info.trace.length),
       Event.gpio_set_value 1], by simp, rfl⟩
  · exact ⟨rfl, rfl, rfl, [Event.gpio_set_value 0, Event.clk_disable_unprepare],
      by simp, rfl⟩



/-! ## Secondary power rail -/

theorem passive_regulator_counts (u : List Event) (h : u.all Event.is_passive = true) :
    regulator_on_count u = 0 ∧ regulator_off_count u = 0 := by
  induction u with
  | nil => exact ⟨rfl, rfl⟩
  | cons e u ih =>
    simp only [List.all_cons, Bool.and_eq_true] at h
    obtain ⟨i1, i2⟩ := ih h.2
    have he := h.1
    unfold regulator_on_count regulator_off_count at *
    cases e <;> simp_all [Event.is_passive, List.count_cons]

theorem rail_passive (a b : usb3813_info) (h : passive_ext a b)
    (ha : regulator_on_count a.trace = regulator_off_count a.trace + a.hsic_enabled.toNat) :
    regulator_on_count b.trace = regulator_off_count b.trace + b.hsic_enabled.toNat := by
  obtain ⟨-, h2, -, u, hu, pu⟩ := h
  obtain ⟨c1, c2⟩ := passive_regulator_counts u pu
  unfold regulator_on_count regulator_off_count at *
  rw [hu, h2, List.count_append, List.count_append, c1, c2]
  omega

theorem rail_set_hsic_state (env : Env) (a : usb3813_info) (enable : Bool)
    (ha : regulator_on_count a.trace = regulator_off_count a.trace + a.hsic_enabled.toNat) :
    regulator_on_count (set_hsic_state env a enable).2.trace =
      regulator_off_count (set_hsic_state env a enable).2.trace +
        (set_hsic_state env a enable).2.hsic_enabled.toNat := by
  rcases set_hsic_state_shape env a enable with h | ⟨hs, h⟩ | ⟨hs, h⟩
  · rw [h]; exact ha
  · rw [h]
    by_cases hr : env.regulator_enable a.trace.length = 0 <;>
      simp [regulator_on_count, regulator_off_count, List.count_append, List.count_cons,
        hs, hr] at ha ⊢ <;>
      omega
  · rw [h]
    by_cases hr : env.regulator_disable a.trace.length = 0 <;>
      simp [regulator_on_count, regulator_off_count, List.count_append, List.count_cons,
        hs, hr] at ha ⊢ <;>
      omega

theorem rail_exec (env : Env) (a : usb3813_info) (op : Op)
    (ha : regulator_on_count a.trace = regulator_off_count a.trace + a.hsic_enabled.toNat) :
    regulator_on_count (exec env a op).trace =
      regulator_off_count (exec env a op).trace + (exec env a op).hsic_enabled.toNat := by
  cases op with
  | call c =>
    cases c with
    | enable_hub enable path =>
      simp only [exec]
      rw [step_enable_hub_eq]
      split_ifs
      · exact ha
      · simpa [regulator_on_count, regulator_off_count, List.count_append] using ha
      · apply rail_set_hsic_state
        simpa [regulator_on_count, regulator_off_count, List.count_append] using ha
      · simpa [regulator_on_count, regulator_off_count, List.count_append] using ha
      · apply rail_set_hsic_state
        simpa [regulator_on_count, regulator_off_count, List.count_append] using ha
    | dbg_enable_write val =>
      exact rail_passive _ _ (usb3813_dbg_enable_write_passive env a val) ha
  | fire boost_val =>
    simp only [exec]
    cases hw : a.usb3813_attach_work with
    | none => exact ha
    | some d =>
      exact rail_passive { a with usb3813_attach_work := none } _
        (usb3813_attach_w_passive env _ boost_val) ha
  | get_reg => exact rail_passive _ _ (get_reg_passive env a) ha
  | set_reg val => exact rail_passive _ _ (set_reg_passive env a val) ha
  | set_address addr => exact ha
  | dbg_attach_write val =>
    exact rail_passive _ _ (usb3813_dbg_attach_write_passive env a val) ha
  | hsic_vdd_store mode count =>
    cases mode with
    | none => exact ha
    | some m =>
      have e : (exec env a (Op.hsic_vdd_store (some m) count)) =
          (set_hsic_state env a (decide (m ≠ 0))).2 := by
        simp only [exec, usb3813_hsic_vdd_store]
        split_ifs <;> rfl
      rw [e]
      exact rail_set_hsic_state env a _ ha

theorem rail_steps (env : Env) (ops : List Op) :
    ∀ a : usb3813_info,
      regulator_on_count a.trace = regulator_off_count a.trace + a.hsic_enabled.toNat →
      regulator_on_count (steps env a ops).trace =
        regulator_off_count (steps env a ops).trace + (steps env a ops).hsic_enabled.toNat := by
  induction ops with
  | nil => intro a ha; exact ha
  | cons op ops ih => intro a ha; exact ih _ (rail_exec env a op ha)

/-- C20. `set_hsic_state(enable)` makes no regulator call when `hsic_enabled`
already equals `enable`; it calls `regulator_enable` only with the flag false
and `regulator_disable` only with the flag true, and the flag follows the
request exactly when that call returns 0.  Hence after every sequence of
operations from the probed state (sysfs `hsic_vdd` writes, hub enable and
disable, and all the others) the successful regulator enables are the
successful disables plus 1 if `hsic_enabled` is true, plus 0 otherwise. -/
theorem hsic_enabled_tracks_regulator (env : Env) (info : usb3813_info) (enable : Bool)
    (addr : Nat) (ops : List Op) :
    (info.hsic_enabled = enable → (set_hsic_state env info enable).2 = info) ∧
    (info.hsic_enabled = false → enable = true →
      (set_hsic_state env info enable).2 =
        { info with
            hsic_enabled := decide (env.regulator_enable info.trace.length = 0)
            trace := info.trace ++
              [Event.regulator_enable (env.regulator_enable info.trace.length)] }) ∧
    (info.hsic_enabled = true → enable = false →
      (set_hsic_state env info enable).2 =
        { info with
            hsic_enabled := !decide (env.regulator_disable info.trace.length = 0)
            trace := info.trace ++
              [Event.regulator_disable (env.regulator_disable info.trace.length)] }) ∧
    regulator_on_count (steps env (usb3813_info.init addr) ops).trace =
      regulator_off_count (steps env (usb3813_info.init addr) ops).trace +
        (if (steps env (usb3813_info.init addr) ops).hsic_enabled then 1 else 0) := by
  refine ⟨?_, ?_, ?_, ?_⟩
  · intro h
    rw [set_hsic_state_same env info enable h]
  · intro h he
    subst he
    rw [set_hsic_state_on env info h]
  · intro h he
    subst he
    rw [set_hsic_state_off env info h]
  · have h := rail_steps env ops (usb3813_info.init addr) rfl
    rw [h]
    cases (steps env (usb3813_info.init addr) ops).hsic_enabled <;> rfl

theorem hsic_enabled_tracks_regulator_witness :
    (usb3813_info.init 0x2d).hsic_enabled = false ∧
    (set_hsic_state env_regulator_fail (usb3813_info.init 0x2d) true).2 =
      { usb3813_info.init 0x2d with
          hsic_enabled := false
          trace := [Event.regulator_enable (-22)] } ∧
    (set_hsic_state env_ok (usb3813_info.init 0x2d) false).2 = usb3813_info.init 0x2d :=
  ⟨rfl,
   (hsic_enabled_tracks_regulator env_regulator_fail (usb3813_info.init 0x2d) true 0 []).2.1
     rfl rfl,
   (hsic_enabled_tracks_regulator env_ok (usb3813_info.init 0x2d) false 0 []).1 rfl⟩



/-! ## Attach work and hub state -/

theorem passive_armed (u : List Event) (h : u.all Event.is_passive = true) :
    ∀ n : Nat, u.foldl armed_step n = n := by
  induction u with
  | nil => intro n; rfl
  | cons e u ih =>
    intro n
    simp only [List.all_cons, Bool.and_eq_true] at h
    have he := h.1
    rw [List.foldl_cons]
    cases e <;> simp_all [Event.is_passive, armed_step]

theorem work_passive (a b : usb3813_info) (h : passive_ext a b)
    (ha : (a.usb3813_attach_work.isSome = true → a.hub_enabled = true) ∧
      armed_count a.trace ≤ 1) :
    (b.usb3813_attach_work.isSome = true → b.hub_enabled = true) ∧
      armed_count b.trace ≤ 1 := by
  obtain ⟨h1, -, h3, u, hu, pu⟩ := h
  refine ⟨?_, ?_⟩
  · rw [h1, h3]; exact ha.1
  · unfold armed_count at *
    rw [hu, List.foldl_append, passive_armed u pu]
    exact ha.2

theorem set_hsic_state_frame (env : Env) (a : usb3813_info) (enable : Bool) :
    (set_hsic_state env a enable).2.hub_enabled = a.hub_enabled ∧
    (set_hsic_state env a enable).2.usb3813_attach_work = a.usb3813_attach_work ∧
    armed_count (set_hsic_state env a enable).2.trace = armed_count a.trace ∧
    i2c_count (set_hsic_state env a enable).2.trace = i2c_count a.trace := by
  rcases set_hsic_state_shape env a enable with h | ⟨-, h⟩ | ⟨-, h⟩ <;> rw [h] <;>
    simp [armed_count, armed_step, i2c_count, List.filter_append, List.filter, Event.is_i2c]

theorem work_set_hsic_state (env : Env) (a : usb3813_info) (enable : Bool)
    (ha : (a.usb3813_attach_work.isSome = true → a.hub_enabled = true) ∧
      armed_count a.trace ≤ 1) :
    ((set_hsic_state env a enable).2.usb3813_attach_work.isSome = true →
      (set_hsic_state env a enable).2.hub_enabled = true) ∧
    armed_count (set_hsic_state env a enable).2.trace ≤ 1 := by
  obtain ⟨e1, e2, e3, -⟩ := set_hsic_state_frame env a enable
  rw [e1, e2, e3]
  exact ha

theorem work_exec (env : Env) (a : usb3813_info) (op : Op)
    (ha : (a.usb3813_attach_work.isSome = true → a.hub_enabled = true) ∧
      armed_count a.trace ≤ 1) :
    ((exec env a op).usb3813_attach_work.isSome = true → (exec env a op).hub_enabled = true) ∧
    armed_count (exec env a op).trace ≤ 1 := by
  cases op with
  | call c =>
    cases c with
    | enable_hub enable path =>
      simp only [exec]
      rw [step_enable_hub_eq]
      split_ifs
      · exact ha
      · simp [armed_count, armed_step, List.foldl_append]
      · apply work_set_hsic_state
        simp [armed_count, armed_step, List.foldl_append]
      · simp [armed_count, armed_step, List.foldl_append]
      · apply work_set_hsic_state
        simp [armed_count, armed_step, List.foldl_append]
    | dbg_enable_write val =>
      exact work_passive _ _ (usb3813_dbg_enable_write_passive env a val) ha
  | fire boost_val =>
    simp only [exec]
    cases hw : a.usb3813_attach_work with
    | none => simpa [hw] using ha
    | some d =>
      exact work_passive { a with usb3813_attach_work := none } _
        (usb3813_attach_w_passive env _ boost_val) ⟨by simp, ha.2⟩
  | get_reg => exact work_passive _ _ (get_reg_passive env a) ha
  | set_reg val => exact work_passive _ _ (set_reg_passive env a val) ha
  | set_address addr => exact ha
  | dbg_attach_write val =>
    exact work_passive _ _ (usb3813_dbg_attach_write_passive env a val) ha
  | hsic_vdd_store mode count =>
    cases mode with
    | none => exact ha
    | some m =>
      have e : (exec env a (Op.hsic_vdd_store (some m) count)) =
          (set_hsic_state env a (decide (m ≠ 0))).2 := by
        simp only [exec, usb3813_hsic_vdd_store]
        split_ifs <;> rfl
      rw [e]
      exact work_set_hsic_state env a _ ha

theorem work_steps (env : Env) (ops : List Op) :
    ∀ a : usb3813_info,
      ((a.usb3813_attach_work.isSome = true → a.hub_enabled = true) ∧
        armed_count a.trace ≤ 1) →
      ((steps env a ops).usb3813_attach_work.isSome = true →
        (steps env a ops).hub_enabled = true) ∧
      armed_count (steps env a ops).trace ≤ 1 := by
  induction ops with
  | nil => intro a ha; exact ha
  | cons op ops ih => intro a ha; exact ih _ (work_exec env a op ha)

theorem steps_fire_idle (env : Env) (boosts : List Nat) (a : usb3813_info)
    (hw : a.usb3813_attach_work = none) :
    steps env a (boosts.map Op.fire) = a := by
  induction boosts with
  | nil => rfl
  | cons b bs ih =>
    have e : exec env a (Op.fire b) = a := by simp [exec, hw]
    simp only [List.map_cons, steps, e]
    exact ih

theorem usb3813_attach_w_disabled (env : Env) (a : usb3813_info) (boost_val : Nat)
    (h : a.hub_enabled = false) : usb3813_attach_w env a boost_val = a := by
  simp [usb3813_attach_w, h]

theorem enable_then_disable (env : Env) (a : usb3813_info) (p1 p2 : usb_ext_path) :
    (steps env a [Op.call (Call.enable_hub true p1),
        Op.call (Call.enable_hub false p2)]).usb3813_attach_work = none ∧
    (steps env a [Op.call (Call.enable_hub true p1),
        Op.call (Call.enable_hub false p2)]).hub_enabled = false ∧
    i2c_count (steps env a [Op.call (Call.enable_hub true p1),
        Op.call (Call.enable_hub false p2)]).trace = i2c_count a.trace := by
  have hflag : (step env a (Call.enable_hub true p1)).2.hub_enabled = true := by
    obtain ⟨a1, h1, hf⟩ := usb3813_enable_hub_true_flag env a p1
    rcases hp : usb3813_enable_hub env (some a) true p1 with ⟨r, o⟩
    rw [hp] at h1
    simp only at h1
    subst h1
    simp only [step, hp]
    exact hf
  have hcount : i2c_count (step env a (Call.enable_hub true p1)).2.trace =
      i2c_count a.trace := by
    rw [step_enable_hub_eq]
    split_ifs
    · rfl
    · simp [i2c_count, List.filter_append, List.filter, Event.is_i2c]
    · rw [(set_hsic_state_frame env _ true).2.2.2]
      simp [i2c_count, List.filter_append, List.filter, Event.is_i2c]
    · simp [i2c_count, List.filter_append, List.filter, Event.is_i2c]
    · rename_i h1 h2
      exact absurd rfl h2
  simp only [steps, exec]
  rw [step_enable_hub_eq env (step env a (Call.enable_hub true p1)).2 false p2, hflag]
  simp only [Bool.false_eq_true, if_false]
  obtain ⟨e1, e2, -, e4⟩ := set_hsic_state_frame env
    { (step env a (Call.enable_hub true p1)).2 with
        hub_enabled := false
        usb3813_attach_work := none
        trace := (step env a (Call.enable_hub true p1)).2.trace ++
          [Event.cancel_delayed_work, Event.gpio_set_value 0,
           Event.clk_disable_unprepare] } false
  refine ⟨e2, e1, ?_⟩
  rw [e4, ← hcount]
  simp [i2c_count, List.filter_append, List.filter, Event.is_i2c]



/-- C11. The attach work is one `delayed_work`, queued or not.  In every state
reached from the probed state by any operations (hub enable and disable,
timer expiry, debugfs and sysfs accesses) no work is queued while
`hub_enabled` is false, and no `schedule_delayed_work` was made on top of
another without a `cancel_delayed_work` in between.  Run with `hub_enabled`
false, `usb3813_attach_w` makes no call at all.  After an enable call
directly followed by a disable call, from any state, no work is queued, the
hub is off and no bus exchange was added; any number of timer expiries, and
even a run of the work function itself, then leave the state and its trace as
they are. -/
theorem no_attach_while_disabled (env : Env) (addr : Nat) (ops : List Op)
    (info : usb3813_info) (boost_val : Nat) (p1 p2 : usb_ext_path) (boosts : List Nat) :
    ((steps env (usb3813_info.init addr) ops).hub_enabled = false →
      (steps env (usb3813_info.init addr) ops).usb3813_attach_work = none) ∧
    armed_count (steps env (usb3813_info.init addr) ops).trace ≤ 1 ∧
    (info.hub_enabled = false → usb3813_attach_w env info boost_val = info) ∧
    (steps env info [Op.call (Call.enable_hub true p1),
        Op.call (Call.enable_hub false p2)]).usb3813_attach_work = none ∧
    (steps env info [Op.call (Call.enable_hub true p1),
        Op.call (Call.enable_hub false p2)]).hub_enabled = false ∧
    i2c_count (steps env info [Op.call (Call.enable_hub true p1),
        Op.call (Call.enable_hub false p2)]).trace = i2c_count info.trace ∧
    steps env (steps env info [Op.call (Call.enable_hub true p1),
        Op.call (Call.enable_hub false p2)]) (boosts.map Op.fire) =
      steps env info [Op.call (Call.enable_hub true p1),
        Op.call (Call.enable_hub false p2)] ∧
    usb3813_attach_w env (steps env info [Op.call (Call.enable_hub true p1),
        Op.call (Call.enable_hub false p2)]) boost_val =
      steps env info [Op.call (Call.enable_hub true p1),
        Op.call (Call.enable_hub false p2)] := by
  obtain ⟨i1, i2⟩ := work_steps env ops (usb3813_info.init addr)
    ⟨by simp [usb3813_info.init], by simp [usb3813_info.init, armed_count]⟩
  obtain ⟨e1, e2, e3⟩ := enable_then_disable env info p1 p2
  refine ⟨?_, i2, usb3813_attach_w_disabled env info boost_val, e1, e2, e3,
    steps_fire_idle env boosts _ e1, usb3813_attach_w_disabled env _ boost_val e2⟩
  intro hoff
  cases hw : (steps env (usb3813_info.init addr) ops).usb3813_attach_work with
  | none => rfl
  | some d =>
    have hon := i1 (by simp [hw])
    rw [hoff] at hon
    exact absurd hon (by decide)

theorem no_attach_while_disabled_witness :
    (usb3813_info.init 0x2d).hub_enabled = false ∧
    usb3813_attach_w env_attach_ok (usb3813_info.init 0x2d) 3 = usb3813_info.init 0x2d ∧
    (steps env_attach_ok (usb3813_info.init 0x2d)
      [Op.call (Call.enable_hub true usb_ext_path.USB_EXT_PATH_BRIDGE),
       Op.call (Call.enable_hub false usb_ext_path.USB_EXT_PATH_BRIDGE),
       Op.fire 3]).hub_enabled = false ∧
    (steps env_attach_ok (usb3813_info.init 0x2d)
      [Op.call (Call.enable_hub true usb_ext_path.USB_EXT_PATH_BRIDGE),
       Op.call (Call.enable_hub false usb_ext_path.USB_EXT_PATH_BRIDGE),
       Op.fire 3]).usb3813_attach_work = none :=
  ⟨rfl,
   (no_attach_while_disabled env_attach_ok 0x2d [] (usb3813_info.init 0x2d) 3
      usb_ext_path.USB_EXT_PATH_BRIDGE usb_ext_path.USB_EXT_PATH_BRIDGE []).2.2.1 rfl,
   rfl,
   (no_attach_while_disabled env_attach_ok 0x2d
      [Op.call (Call.enable_hub true usb_ext_path.USB_EXT_PATH_BRIDGE),
       Op.call (Call.enable_hub false usb_ext_path.USB_EXT_PATH_BRIDGE),
       Op.fire 3] (usb3813_info.init 0x2d) 3
      usb_ext_path.USB_EXT_PATH_BRIDGE usb_ext_path.USB_EXT_PATH_BRIDGE []).1 rfl⟩


end Usb3813
